import Mathlib

/-
Verification of the outbound-payment engine of `lightning/src/ln/outbound_payment.rs`.

The Rust source is shallowly embedded: pure data is translated to Lean structures
and inductives, `u64`/`u32`/`u8` arithmetic is `Nat` with an explicit wrap-around
modulus where the machine width matters, the `HashSet<[u8; 32]>` of onion session
secrets is a duplicate-free list with insert/remove operations returning the same
booleans as the Rust API, and the mutexed `HashMap<PaymentId, PendingOutboundPayment>`
is an association list threaded through each operation as explicit state.

External collaborators (router, entropy source, SHA-256, the
`send_payment_along_path` dispatch callback) are parameters of the embedded
operations, exactly as they are generic parameters or external crates in the
source.  Types that live in sibling modules not shipped with this crate
(`APIError`, `events::Event`, route accessors) are modelled from the
specification, as marked on each definition.
-/

set_option maxHeartbeats 1600000

namespace LDK

/-- Wrap-around modulus of Rust `u64`, the type of all msat amounts in the source. -/
def U64LIM : Nat := 18446744073709551616

/-- Rust `u64` wrapping addition. -/
def wadd (a b : Nat) : Nat := (a + b) % U64LIM

/-- Rust `u64` wrapping subtraction (agrees with `u64` two's-complement wrap for
operands below `U64LIM`). -/
def wsub (a b : Nat) : Nat := (a + U64LIM - b % U64LIM) % U64LIM

/-- Rust `u64` wrapping multiplication. -/
def wmul (a b : Nat) : Nat := (a * b) % U64LIM

/-- Rust `u32` wrapping addition (block heights, `best_block_height + 1`). -/
def wadd32 (a b : Nat) : Nat := (a + b) % 4294967296

/-- Rust `u8` wrapping addition (`timer_ticks_without_htlcs += 1`). -/
def wadd8 (a b : Nat) : Nat := (a + b) % 256

/-- Opaque 32-byte onion session secret (`session_priv`), abstracted to `Nat`. -/
abbrev SessionPriv := Nat

/-- Opaque 32-byte caller-chosen payment identifier, abstracted to `Nat`. -/
abbrev PaymentId := Nat

/-- Opaque secp256k1 public key, abstracted to `Nat`; only equality is used. -/
abbrev PubKey := Nat

/-- Opaque 32-byte payment hash, abstracted to `Nat`. -/
abbrev PaymentHash := Nat

/-- Opaque 32-byte recipient-issued payment secret, abstracted to `Nat`. -/
abbrev PaymentSecret := Nat

/-- Opaque 32-byte payment preimage, abstracted to `Nat`. -/
abbrev PaymentPreimage := Nat

/-- One hop of a route.  Of the fields of `routing::router::RouteHop` the engine
reads `pubkey`, `fee_msat` and `cltv_expiry_delta`; the rest are never touched. -/
structure RouteHop where
  pubkey : PubKey
  fee_msat : Nat
  cltv_expiry_delta : Nat
  deriving DecidableEq, Repr

/-- A path is an ordered sequence of hops (`Vec<RouteHop>`). -/
abbrev Path := List RouteHop

/-- Modelled from the spec: `routing::router::PaymentParameters` is outside this
crate's shipped source.  The engine reads and writes `final_cltv_expiry_delta`,
pushes into `previously_failed_channels`, reads `expiry_time`, and otherwise
treats the value as opaque (`payee` stands for all remaining payee data). -/
structure PaymentParameters where
  payee : Nat
  final_cltv_expiry_delta : Option Nat
  previously_failed_channels : List Nat
  expiry_time : Option Nat
  deriving DecidableEq, Repr

/-- `routing::router::RouteParameters`, as used by the engine. -/
structure RouteParameters where
  payment_params : PaymentParameters
  final_value_msat : Nat
  final_cltv_expiry_delta : Nat
  deriving DecidableEq, Repr

/-- `routing::router::Route`: the paths plus the optional payment parameters. -/
structure Route where
  paths : List Path
  payment_params : Option PaymentParameters
  deriving DecidableEq, Repr

/-- Last-hop `fee_msat` of a path: the amount delivered to the recipient over it
(`path.last().unwrap().fee_msat` in the source; 0 stands for the unreachable
panic on an empty path). -/
def last_hop_fee (p : Path) : Nat :=
  match p.getLast? with
  | some hop => hop.fee_msat
  | none => 0

/-- Last-hop `cltv_expiry_delta` of a path (`path.last().unwrap().cltv_expiry_delta`). -/
def last_hop_cltv (p : Path) : Nat :=
  match p.getLast? with
  | some hop => hop.cltv_expiry_delta
  | none => 0

/-- Modelled from the spec: `RoutePath::get_path_fees` lives in `router.rs`,
which is not shipped; per the spec it is the sum of the intermediate hops'
`fee_msat` (every hop except the last). -/
def get_path_fees (p : Path) : Nat :=
  p.dropLast.foldl (fun acc hop => wadd acc hop.fee_msat) 0

/-- Modelled from the spec: `Route::get_total_amount` lives in `router.rs`,
which is not shipped; per the spec it is `Σ path.last().fee_msat`. -/
def Route.get_total_amount (r : Route) : Nat :=
  r.paths.foldl (fun acc p => wadd acc (last_hop_fee p)) 0

/-- Modelled from the spec: `util::errors::APIError` is outside the shipped
source.  The spec names the kinds the engine relies on: `APIMisuseError`,
`InvalidRoute`, `ChannelUnavailable` and the specially-treated
`MonitorUpdateInProgress`. -/
inductive APIError where
  | APIMisuseError (err : String)
  | InvalidRoute (err : String)
  | ChannelUnavailable (err : String)
  | MonitorUpdateInProgress
  deriving DecidableEq, Repr

/-- Rust `Result<α, ε>` with decidable equality. -/
inductive RResult (α ε : Type) where
  | ok (v : α)
  | err (e : ε)
  deriving DecidableEq, Repr

/-- Rust `Result::is_ok`. -/
def RResult.isOk {α ε : Type} : RResult α ε → Bool
  | .ok _ => true
  | .err _ => false

/-- Rust `Result::is_err`. -/
def RResult.isErr {α ε : Type} : RResult α ε → Bool
  | .ok _ => false
  | .err _ => true

/-- `PaymentSendFailure`: the error type of the send-family operations
(source lines 320-392). -/
inductive PaymentSendFailure where
  | ParameterError (e : APIError)
  | PathParameterError (results : List (RResult Unit APIError))
  | AllFailedResendSafe (errs : List APIError)
  | DuplicatePayment
  | PartialFailure (results : List (RResult Unit APIError))
      (failed_paths_retry : Option RouteParameters) (payment_id : PaymentId)
  deriving DecidableEq, Repr

/-- `PaymentAttempts`: only the attempt counter enters the retry policy that the
claims touch; `first_attempted_at` feeds the wall-clock `Retry::Timeout`
strategy, which cannot be evaluated in a pure embedding and is omitted together
with that strategy (see `Retry`). -/
structure PaymentAttempts where
  count : Nat
  deriving DecidableEq, Repr

/-- `Retry`: the retry strategy.  `Retry::Timeout` compares wall-clock instants
and is `std`-only; no claim exercises it, so the embedding carries the
`Attempts` strategy the claims use. -/
inductive Retry where
  | Attempts (max_retry_count : Nat)
  deriving DecidableEq, Repr

/-- `Retry::is_retryable_now` (source lines 249-261, `Attempts` arm):
`max_retry_count > count`. -/
def Retry.is_retryable_now (r : Retry) (attempts : PaymentAttempts) : Bool :=
  match r with
  | .Attempts max_retry_count => decide (attempts.count < max_retry_count)

/-- Field record of the `Retryable` variant of `PendingOutboundPayment`. -/
structure RetryableData where
  retry_strategy : Option Retry
  attempts : PaymentAttempts
  payment_params : Option PaymentParameters
  session_privs : List SessionPriv
  payment_hash : PaymentHash
  payment_secret : Option PaymentSecret
  keysend_preimage : Option PaymentPreimage
  pending_amt_msat : Nat
  pending_fee_msat : Option Nat
  total_msat : Nat
  starting_block_height : Nat
  deriving DecidableEq, Repr

/-- `PendingOutboundPayment` (source lines 40-79): the per-payment state
machine.  The `HashSet<[u8; 32]>` of session secrets is a list kept
duplicate-free by `setInsert`. -/
inductive PendingOutboundPayment where
  | Legacy (session_privs : List SessionPriv)
  | Retryable (d : RetryableData)
  | Fulfilled (session_privs : List SessionPriv) (payment_hash : Option PaymentHash)
      (timer_ticks_without_htlcs : Nat)
  | Abandoned (session_privs : List SessionPriv) (payment_hash : PaymentHash)
  deriving DecidableEq, Repr

/-- `HashSet::insert`: returns the new set and whether the value was newly added. -/
def setInsert (s : List SessionPriv) (x : SessionPriv) : List SessionPriv × Bool :=
  if x ∈ s then (s, false) else (x :: s, true)

/-- `HashSet::remove`: returns the new set and whether the value was present. -/
def setRemove (s : List SessionPriv) (x : SessionPriv) : List SessionPriv × Bool :=
  if x ∈ s then (s.erase x, true) else (s, false)

namespace PendingOutboundPayment

/-- The session-secret set of any variant (the source accesses it by an
or-pattern over all four variants). -/
def sessionSet : PendingOutboundPayment → List SessionPriv
  | .Legacy session_privs => session_privs
  | .Retryable d => d.session_privs
  | .Fulfilled session_privs _ _ => session_privs
  | .Abandoned session_privs _ => session_privs

/-- `increment_attempts` (source lines 82-86). -/
def increment_attempts : PendingOutboundPayment → PendingOutboundPayment
  | .Retryable d => .Retryable { d with attempts := ⟨d.attempts.count + 1⟩ }
  | p => p

/-- `is_auto_retryable_now` (source lines 87-94): a strategy must be present. -/
def is_auto_retryable_now : PendingOutboundPayment → Bool
  | .Retryable d =>
    match d.retry_strategy with
    | some strategy => strategy.is_retryable_now d.attempts
    | none => false
  | _ => false

/-- `is_retryable_now` (source lines 95-106): with no strategy, manual retries
are always permitted. -/
def is_retryable_now : PendingOutboundPayment → Bool
  | .Retryable d =>
    match d.retry_strategy with
    | none => true
    | some strategy => strategy.is_retryable_now d.attempts
  | _ => false

/-- `insert_previously_failed_scid` (source lines 115-119). -/
def insert_previously_failed_scid (p : PendingOutboundPayment) (scid : Nat) :
    PendingOutboundPayment :=
  match p with
  | .Retryable d =>
    match d.payment_params with
    | some params =>
      let params2 := { params with
        previously_failed_channels := params.previously_failed_channels ++ [scid] }
      .Retryable { d with payment_params := some params2 }
    | none => .Retryable d
  | _ => p

/-- `is_fulfilled` (source lines 120-125). -/
def is_fulfilled : PendingOutboundPayment → Bool
  | .Fulfilled _ _ _ => true
  | _ => false

/-- `abandoned` (source lines 126-131). -/
def abandoned : PendingOutboundPayment → Bool
  | .Abandoned _ _ => true
  | _ => false

/-- `get_pending_fee_msat` (source lines 132-137). -/
def get_pending_fee_msat : PendingOutboundPayment → Option Nat
  | .Retryable d => d.pending_fee_msat
  | _ => none

/-- `payment_hash` (source lines 139-146). -/
def payment_hash : PendingOutboundPayment → Option PaymentHash
  | .Legacy _ => none
  | .Retryable d => some d.payment_hash
  | .Fulfilled _ payment_hash _ => payment_hash
  | .Abandoned _ payment_hash => some payment_hash

/-- `mark_fulfilled` (source lines 148-159): the session set is swapped across
into a fresh `Fulfilled` record with a zeroed idempotency timer. -/
def mark_fulfilled (p : PendingOutboundPayment) : PendingOutboundPayment :=
  .Fulfilled p.sessionSet p.payment_hash 0

/-- `remove` (source lines 179-199): drop one session secret; on success a
`Retryable` payment also releases the path's amount and fees.  The source
panics when `path` is `None` for a non-fulfilled payment ("Fulfilling a payment
should always come with a path"); the embedding reads an empty path there,
which every caller avoids. -/
def remove (p : PendingOutboundPayment) (session_priv : SessionPriv)
    (path : Option Path) : PendingOutboundPayment × Bool :=
  match p with
  | .Legacy session_privs =>
    let (s, remove_res) := setRemove session_privs session_priv
    (.Legacy s, remove_res)
  | .Retryable d =>
    let (s, remove_res) := setRemove d.session_privs session_priv
    if remove_res then
      let pth := path.getD []
      (.Retryable { d with
        session_privs := s,
        pending_amt_msat := wsub d.pending_amt_msat (last_hop_fee pth),
        pending_fee_msat := d.pending_fee_msat.map (fun f => wsub f (get_path_fees pth)) },
       true)
    else (.Retryable d, false)
  | .Fulfilled session_privs h t =>
    let (s, remove_res) := setRemove session_privs session_priv
    (.Fulfilled s h t, remove_res)
  | .Abandoned session_privs h =>
    let (s, remove_res) := setRemove session_privs session_priv
    (.Abandoned s h, remove_res)

/-- `insert` (source lines 201-220): add one session secret; `Fulfilled` and
`Abandoned` refuse outright, and a successful insert into a `Retryable` payment
also books the path's amount and fees. -/
def insert (p : PendingOutboundPayment) (session_priv : SessionPriv) (path : Path) :
    PendingOutboundPayment × Bool :=
  match p with
  | .Legacy session_privs =>
    let (s, insert_res) := setInsert session_privs session_priv
    (.Legacy s, insert_res)
  | .Retryable d =>
    let (s, insert_res) := setInsert d.session_privs session_priv
    if insert_res then
      (.Retryable { d with
        session_privs := s,
        pending_amt_msat := wadd d.pending_amt_msat (last_hop_fee path),
        pending_fee_msat := d.pending_fee_msat.map (fun f => wadd f (get_path_fees path)) },
       true)
    else (.Retryable d, false)
  | .Fulfilled _ _ _ => (p, false)
  | .Abandoned _ _ => (p, false)

/-- `remaining_parts` (source lines 222-231). -/
def remaining_parts (p : PendingOutboundPayment) : Nat :=
  p.sessionSet.length

end PendingOutboundPayment

/-- Modelled from the spec: `util::events::Event` is outside the shipped
source.  Fields follow the spec's event descriptions; `network_update` is
opaque.  Only the variants the engine emits or scans are carried. -/
inductive Event where
  | PaymentSent (payment_id : Option PaymentId) (payment_preimage : PaymentPreimage)
      (payment_hash : PaymentHash) (fee_paid_msat : Option Nat)
  | PaymentPathSuccessful (payment_id : PaymentId) (payment_hash : Option PaymentHash)
      (path : Path)
  | PaymentPathFailed (payment_id : Option PaymentId) (payment_hash : PaymentHash)
      (payment_failed_permanently : Bool) (network_update : Option Nat)
      (all_paths_failed : Bool) (path : Path) (short_channel_id : Option Nat)
      (retry : Option RouteParameters)
  | PaymentFailed (payment_id : PaymentId) (payment_hash : PaymentHash)
  | PendingHTLCsForwardable (time_forwardable : Nat)
  | ProbeSuccessful (payment_id : PaymentId) (payment_hash : PaymentHash) (path : Path)
  | ProbeFailed (payment_id : PaymentId) (payment_hash : PaymentHash) (path : Path)
      (short_channel_id : Option Nat)
  deriving DecidableEq, Repr

/-- The registry `HashMap<PaymentId, PendingOutboundPayment>`, as an association
list with pairwise-distinct keys maintained by construction. -/
abbrev OutboundMap := List (PaymentId × PendingOutboundPayment)

/-- `HashMap` lookup. -/
def mapLookup : OutboundMap → PaymentId → Option PendingOutboundPayment
  | [], _ => none
  | (k, v) :: rest, id => if k = id then some v else mapLookup rest id

/-- In-place replacement of the value stored under an existing key (the effect
of mutating through an occupied entry). -/
def mapUpdate : OutboundMap → PaymentId → PendingOutboundPayment → OutboundMap
  | [], _, _ => []
  | (k, v) :: rest, id, p => if k = id then (k, p) :: rest else (k, v) :: mapUpdate rest id p

/-- `HashMap` removal of a key. -/
def mapRemove : OutboundMap → PaymentId → OutboundMap
  | [], _ => []
  | (k, v) :: rest, id => if k = id then rest else (k, v) :: mapRemove rest id

/-- Insertion through a vacant entry (the key is absent). -/
def mapInsertNew (m : OutboundMap) (id : PaymentId) (p : PendingOutboundPayment) :
    OutboundMap :=
  (id, p) :: m

/-- The `send_payment_along_path` dispatch callback: its Rust counterpart takes
the path, the route's payment parameters, hash, secret, the full MPP value, the
current height, the payment id, the keysend preimage and the session secret. -/
abbrev SendPaymentAlongPath :=
  Path → Option PaymentParameters → PaymentHash → Option PaymentSecret → Nat → Nat →
    PaymentId → Option PaymentPreimage → SessionPriv → RResult Unit APIError

/-- Whether some non-terminal hop of the path is our own node (the inner loop of
the `'path_check` validation, source lines 779-784). -/
def path_goes_through_us (our_node_id : PubKey) (p : Path) : Bool :=
  p.enum.any (fun ih => decide (ih.1 ≠ p.length - 1) && decide (ih.2.pubkey = our_node_id))

/-- Per-path validation of `pay_route_internal` (source lines 774-787): length
in `1..=20` and no non-terminal hop through our own node. -/
def check_path (our_node_id : PubKey) (p : Path) : RResult Unit APIError :=
  if p.length < 1 ∨ p.length > 20 then
    .err (.InvalidRoute "Path didn't go anywhere/had bogus size")
  else if path_goes_through_us our_node_id p then
    .err (.InvalidRoute "Path went through us but wasn't a simple rebalance loop to us")
  else .ok ()

/-- The `'path_check` loop (source lines 771-787): per-path results in route
order, plus `total_value`, the sum of last-hop fees of the valid paths. -/
def path_check_loop (our_node_id : PubKey) : List Path → List (RResult Unit APIError) × Nat
  | [] => ([], 0)
  | p :: rest =>
    match check_path our_node_id p with
    | .err e =>
      let (errs, tv) := path_check_loop our_node_id rest
      (.err e :: errs, tv)
    | .ok _ =>
      let (errs, tv) := path_check_loop our_node_id rest
      (.ok () :: errs, wadd (last_hop_fee p) tv)

/-- A dispatch result that is an error other than `MonitorUpdateInProgress`:
such a path is "truly removed" from the pending bookkeeping (source line 833). -/
def trulyFailed : RResult Unit APIError → Bool
  | .err .MonitorUpdateInProgress => false
  | .err _ => true
  | .ok _ => false

/-- `has_ok` of the aggregation loop (source lines 821-837): an `Ok` path or a
`MonitorUpdateInProgress` path sets it. -/
def res_has_ok (results : List (RResult Unit APIError)) : Bool :=
  results.any (fun r =>
    match r with
    | .ok _ => true
    | .err .MonitorUpdateInProgress => true
    | .err _ => false)

/-- `has_err` of the aggregation loop: any `Err` sets it. -/
def res_has_err (results : List (RResult Unit APIError)) : Bool :=
  results.any RResult.isErr

/-- `pending_amt_unsent` (source lines 823, 834): wrapping sum of the last-hop
fees of the truly-failed paths, in route order. -/
def pending_amt_unsent (rps : List (RResult Unit APIError × Path)) : Nat :=
  rps.foldl (fun acc rp => if trulyFailed rp.1 then wadd acc (last_hop_fee rp.2) else acc) 0

/-- `max_unsent_cltv_delta` (source lines 824, 835): maximum last-hop
`cltv_expiry_delta` over the truly-failed paths, starting from 0. -/
def max_unsent_cltv_delta (rps : List (RResult Unit APIError × Path)) : Nat :=
  rps.foldl (fun acc rp => if trulyFailed rp.1 then max acc (last_hop_cltv rp.2) else acc) 0

/-- The `total_value` handed to every dispatch (source lines 791-794): the sum
accumulated by the check loop, overridden by `recv_value_msat` when supplied. -/
def pri_total_value (checked_tv : Nat) (recv_value_msat : Option Nat) : Nat :=
  match recv_value_msat with
  | some amt_msat => amt_msat
  | none => checked_tv

/-- The dispatch loop of `pay_route_internal` (source lines 799-820): invoke
the callback per `(path, session_priv)` pair; on a non-monitor error remove the
session from the registry entry (or rewrite the error if the payment vanished). -/
def pri_dispatch (spap : SendPaymentAlongPath) (route_pp : Option PaymentParameters)
    (payment_hash : PaymentHash) (payment_secret : Option PaymentSecret)
    (total_value cur_height : Nat) (payment_id : PaymentId)
    (keysend_preimage : Option PaymentPreimage) :
    List (Path × SessionPriv) → OutboundMap → List (RResult Unit APIError) × OutboundMap
  | [], m => ([], m)
  | (path, session_priv) :: rest, m =>
    let path_res := spap path route_pp payment_hash payment_secret total_value cur_height
      payment_id keysend_preimage session_priv
    let step : RResult Unit APIError × OutboundMap :=
      match path_res with
      | .ok _ => (path_res, m)
      | .err .MonitorUpdateInProgress => (path_res, m)
      | .err _ =>
        match mapLookup m payment_id with
        | some payment =>
          let removal := payment.remove session_priv (some path)
          (path_res, mapUpdate m payment_id removal.1)
        | none =>
          (.err (.APIMisuseError "Internal error: payment disappeared during processing. Please report this bug!"), m)
    let tail := pri_dispatch spap route_pp payment_hash payment_secret total_value cur_height
      payment_id keysend_preimage rest step.2
    (step.1 :: tail.1, tail.2)

/-- The aggregate classification of `pay_route_internal` (source lines
821-858): `has_ok`/`has_err` over the per-path results, the `PartialFailure`
with its optional retry parameters, `AllFailedResendSafe`, or success. -/
def pri_classify (results : List (RResult Unit APIError)) (paths : List Path)
    (route_pp : Option PaymentParameters) (payment_id : PaymentId) :
    RResult Unit PaymentSendFailure :=
  let has_ok := res_has_ok results
  let has_err := res_has_err results
  if has_err && has_ok then
    let pau := pending_amt_unsent (results.zip paths)
    let mucd := max_unsent_cltv_delta (results.zip paths)
    let failed_paths_retry : Option RouteParameters :=
      if pau ≠ 0 then
        match route_pp with
        | some payment_params =>
          some { payment_params := payment_params,
                 final_value_msat := pau,
                 final_cltv_expiry_delta :=
                   match payment_params.final_cltv_expiry_delta with
                   | some delta => delta
                   | none => mucd }
        | none => none
      else none
    .err (.PartialFailure results failed_paths_retry payment_id)
  else if has_err then
    .err (.AllFailedResendSafe (results.filterMap (fun r =>
      match r with
      | .err e => some e
      | .ok _ => none)))
  else
    .ok ()

/-- `pay_route_internal` (source lines 754-859): validation, per-path dispatch
through `send_payment_along_path`, and classification of the aggregate outcome. -/
def pay_route_internal (route : Route) (payment_hash : PaymentHash)
    (payment_secret : Option PaymentSecret) (keysend_preimage : Option PaymentPreimage)
    (payment_id : PaymentId) (recv_value_msat : Option Nat)
    (onion_session_privs : List SessionPriv) (our_node_id : PubKey)
    (best_block_height : Nat) (spap : SendPaymentAlongPath) (m : OutboundMap) :
    RResult Unit PaymentSendFailure × OutboundMap :=
  if route.paths.length < 1 then
    (.err (.ParameterError (.InvalidRoute "There must be at least one path to send over")), m)
  else if payment_secret = none ∧ route.paths.length > 1 then
    (.err (.ParameterError (.APIMisuseError "Payment secret is required for multi-path payments")), m)
  else
    let checked := path_check_loop our_node_id route.paths
    if checked.1.any RResult.isErr then
      (.err (.PathParameterError checked.1), m)
    else
      let total_value := pri_total_value checked.2 recv_value_msat
      let cur_height := wadd32 best_block_height 1
      let dispatched := pri_dispatch spap route.payment_params payment_hash payment_secret
        total_value cur_height payment_id keysend_preimage
        (route.paths.zip onion_session_privs) m
      (pri_classify dispatched.1 route.paths route.payment_params payment_id, dispatched.2)

/-- `add_new_pending_payment` (source lines 717-752).  The entropy-drawn onion
session secrets are a parameter (`onion_session_privs`); a fresh `Retryable`
record is registered if and only if the id is vacant, all sessions being
inserted into it path by path. -/
def add_new_pending_payment (payment_hash : PaymentHash) (payment_secret : Option PaymentSecret)
    (payment_id : PaymentId) (keysend_preimage : Option PaymentPreimage) (route : Route)
    (retry_strategy : Option Retry) (payment_params : Option PaymentParameters)
    (onion_session_privs : List SessionPriv) (best_block_height : Nat) (m : OutboundMap) :
    RResult (List SessionPriv) PaymentSendFailure × OutboundMap :=
  match mapLookup m payment_id with
  | some _ => (.err .DuplicatePayment, m)
  | none =>
    let payment0 : PendingOutboundPayment := .Retryable {
      retry_strategy := retry_strategy,
      attempts := ⟨0⟩,
      payment_params := payment_params,
      session_privs := [],
      pending_amt_msat := 0,
      pending_fee_msat := some 0,
      payment_hash := payment_hash,
      payment_secret := payment_secret,
      keysend_preimage := keysend_preimage,
      starting_block_height := best_block_height,
      total_msat := route.get_total_amount }
    let payment := (route.paths.zip onion_session_privs).foldl
      (fun p ps => (p.insert ps.2 ps.1).1) payment0
    (.ok onion_session_privs, mapInsertNew m payment_id payment)

/-- `remove_outbound_if_all_failed` (source lines 881-886): reap the entry only
when every path failed resend-safe. -/
def remove_outbound_if_all_failed (payment_id : PaymentId) (e : PaymentSendFailure)
    (m : OutboundMap) : OutboundMap :=
  match e with
  | .AllFailedResendSafe _ => mapRemove m payment_id
  | _ => m

/-- `send_payment_with_route` (source lines 426-441): register, dispatch, and
reap the registration only on `AllFailedResendSafe`. -/
def send_payment_with_route (route : Route) (payment_hash : PaymentHash)
    (payment_secret : Option PaymentSecret) (payment_id : PaymentId)
    (onion_session_privs : List SessionPriv) (our_node_id : PubKey)
    (best_block_height : Nat) (spap : SendPaymentAlongPath) (m : OutboundMap) :
    RResult Unit PaymentSendFailure × OutboundMap :=
  match add_new_pending_payment payment_hash payment_secret payment_id none route none none
      onion_session_privs best_block_height m with
  | (.err e, m1) => (.err e, m1)
  | (.ok privs, m1) =>
    match pay_route_internal route payment_hash payment_secret none payment_id none privs
        our_node_id best_block_height spap m1 with
    | (.ok _, m2) => (.ok (), m2)
    | (.err e, m2) => (.err e, remove_outbound_if_all_failed payment_id e m2)

/-- `RETRY_OVERFLOW_PERCENTAGE` (source line 611). -/
def RETRY_OVERFLOW_PERCENTAGE : Nat := 10

/-- The locked bookkeeping section of `retry_payment_with_route` (source lines
611-673): path-length check, the 110% retry-overflow cap, the per-variant
rejections, `is_retryable_now`, attempt increment and session insertion.  On
success it returns the data extracted from the `Retryable` record together
with the updated registry, to be handed to `pay_route_internal`. -/
def retry_payment_with_route_book (route : Route) (payment_id : PaymentId)
    (onion_session_privs : List SessionPriv) (m : OutboundMap) :
    RResult ((Nat × PaymentHash × Option PaymentSecret × Option PaymentPreimage) × OutboundMap)
      PaymentSendFailure :=
  if route.paths.any (fun p => p.length = 0) then
    .err (.ParameterError (.APIMisuseError "length-0 path in route"))
  else
    match mapLookup m payment_id with
    | some payment =>
      match payment with
      | .Retryable d =>
        let retry_amt_msat := route.paths.foldl (fun acc p => wadd acc (last_hop_fee p)) 0
        if wadd retry_amt_msat d.pending_amt_msat >
            wmul d.total_msat (100 + RETRY_OVERFLOW_PERCENTAGE) / 100 then
          .err (.ParameterError (.APIMisuseError ("retry_amt_msat of " ++
            toString retry_amt_msat ++ " will put pending_amt_msat (currently: " ++
            toString d.pending_amt_msat ++ ") more than 10% over total_payment_amt_msat of " ++
            toString d.total_msat)))
        else if !(PendingOutboundPayment.Retryable d).is_retryable_now then
          .err (.ParameterError (.APIMisuseError ("Retries exhausted for payment id " ++
            toString payment_id)))
        else
          let payment1 := (PendingOutboundPayment.Retryable d).increment_attempts
          let payment2 := (route.paths.zip onion_session_privs).foldl
            (fun p ps => (p.insert ps.2 ps.1).1) payment1
          .ok ((d.total_msat, d.payment_hash, d.payment_secret, d.keysend_preimage),
            mapUpdate m payment_id payment2)
      | .Legacy _ =>
        .err (.ParameterError (.APIMisuseError "Unable to retry payments that were initially sent on LDK versions prior to 0.0.102"))
      | .Fulfilled _ _ _ =>
        .err (.ParameterError (.APIMisuseError "Payment already completed"))
      | .Abandoned _ _ =>
        .err (.ParameterError (.APIMisuseError "Payment already abandoned (with some HTLCs still pending)"))
    | none =>
      .err (.ParameterError (.APIMisuseError ("Payment with ID " ++ toString payment_id ++
        " not found")))

/-- `retry_payment_with_route` (source lines 601-675): the locked bookkeeping
section followed by dispatch with `recv_value_msat = Some(total_msat)`. -/
def retry_payment_with_route (route : Route) (payment_id : PaymentId)
    (onion_session_privs : List SessionPriv) (our_node_id : PubKey)
    (best_block_height : Nat) (spap : SendPaymentAlongPath) (m : OutboundMap) :
    RResult Unit PaymentSendFailure × OutboundMap :=
  match retry_payment_with_route_book route payment_id onion_session_privs m with
  | .err e => (.err e, m)
  | .ok (extracted, m1) =>
    pay_route_internal route extracted.2.1 extracted.2.2.1 extracted.2.2.2 payment_id
      (some extracted.1) onion_session_privs our_node_id best_block_height spap m1

/-- `probing_cookie_from_id` (source lines 1161-1166): SHA-256 of the probing
cookie secret concatenated with the payment id; the hash itself is a parameter. -/
def probing_cookie_from_id (cookie_hash : Nat → PaymentId → PaymentHash)
    (payment_id : PaymentId) (probing_cookie_secret : Nat) : PaymentHash :=
  cookie_hash probing_cookie_secret payment_id

/-- `payment_is_probe` (source lines 1153-1158). -/
def payment_is_probe (cookie_hash : Nat → PaymentId → PaymentHash)
    (payment_hash : PaymentHash) (payment_id : PaymentId)
    (probing_cookie_secret : Nat) : Bool :=
  decide (probing_cookie_from_id cookie_hash payment_id probing_cookie_secret = payment_hash)

/-- `send_probe` (source lines 677-707): the payment id is drawn from entropy,
the hash is the probing cookie, a single-path route is registered, dispatched
and reaped only on `AllFailedResendSafe`. -/
def send_probe (hops : Path) (probing_cookie_secret : Nat)
    (cookie_hash : Nat → PaymentId → PaymentHash) (entropy : Nat → Nat) (ectr : Nat)
    (our_node_id : PubKey) (best_block_height : Nat) (spap : SendPaymentAlongPath)
    (m : OutboundMap) :
    RResult (PaymentHash × PaymentId) PaymentSendFailure × OutboundMap :=
  let payment_id : PaymentId := entropy ectr
  let payment_hash := probing_cookie_from_id cookie_hash payment_id probing_cookie_secret
  if hops.length < 2 then
    (.err (.ParameterError (.APIMisuseError "No need probing a path with less than two hops")), m)
  else
    let route : Route := { paths := [hops], payment_params := none }
    let onion_session_privs := [entropy (ectr + 1)]
    match add_new_pending_payment payment_hash none payment_id none route none none
        onion_session_privs best_block_height m with
    | (.err e, m1) => (.err e, m1)
    | (.ok privs, m1) =>
      match pay_route_internal route payment_hash none none payment_id none privs
          our_node_id best_block_height spap m1 with
      | (.ok _, m2) => (.ok (payment_hash, payment_id), m2)
      | (.err e, m2) => (.err e, remove_outbound_if_all_failed payment_id e m2)

/-- `has_expired` (source lines 264-272): the invoice's absolute UNIX expiry
has passed (`now` is the wall clock in seconds). -/
def has_expired (route_params : RouteParameters) (now : Nat) : Bool :=
  match route_params.payment_params.expiry_time with
  | some expiry_time => decide (now > expiry_time)
  | none => false

/-- One fresh 32-byte secret per path, drawn from the entropy stream starting
at index `ectr` (the `get_secure_random_bytes` loop of the callers). -/
def drawSessionPrivs (entropy : Nat → Nat) (ectr n : Nat) : List SessionPriv :=
  (List.range n).map (fun i => entropy (ectr + i))

/-- `pay_internal` (source lines 537-599): expiry check, route finding, either
initial registration plus dispatch or a manual-retry dispatch, then the
recursive retry policy on `AllFailedResendSafe` and `PartialFailure`.  The
Rust recursion is bounded only by the retry strategy; `fuel` bounds it here,
with exhaustion yielding a `ParameterError` that no claim depends on (theorems
quantify over all fuel values).  The entropy stream index is threaded through
and returned. -/
def pay_internal (fuel : Nat) (payment_id : PaymentId)
    (initial_send_info : Option (PaymentHash × Option PaymentSecret × Option PaymentPreimage × Retry))
    (route_params : RouteParameters) (find_route : RouteParameters → RResult Route String)
    (now : Nat) (entropy : Nat → Nat) (ectr : Nat) (our_node_id : PubKey)
    (best_block_height : Nat) (spap : SendPaymentAlongPath) (m : OutboundMap) :
    RResult Unit PaymentSendFailure × OutboundMap × Nat :=
  match fuel with
  | 0 =>
    (.err (.ParameterError (.APIMisuseError "retry recursion fuel exhausted")), m, ectr)
  | fuel + 1 =>
    if has_expired route_params now then
      (.err (.ParameterError (.APIMisuseError ("Invoice expired for payment id " ++
        toString payment_id))), m, ectr)
    else
      match find_route route_params with
      | .err e =>
        (.err (.ParameterError (.APIMisuseError ("Failed to find a route for payment " ++
          toString payment_id ++ ": " ++ e))), m, ectr)
      | .ok route =>
        let onion_session_privs := drawSessionPrivs entropy ectr route.paths.length
        let ectr1 := ectr + route.paths.length
        match initial_send_info with
        | some (payment_hash, payment_secret, keysend_preimage, retry_strategy) =>
          match add_new_pending_payment payment_hash payment_secret payment_id
              keysend_preimage route (some retry_strategy) (some route_params.payment_params)
              onion_session_privs best_block_height m with
          | (.err e, m1) => (.err e, m1, ectr1)
          | (.ok privs, m1) =>
            let step := pay_route_internal route payment_hash payment_secret none payment_id
              none privs our_node_id best_block_height spap m1
            match step.1 with
            | .err (.AllFailedResendSafe errs) =>
              let retry_res := pay_internal fuel payment_id none route_params find_route now
                entropy ectr1 our_node_id best_block_height spap step.2
              match retry_res.1 with
              | .err (.ParameterError (.APIMisuseError err)) =>
                if err.startsWith "Retries exhausted " then
                  (.err (.AllFailedResendSafe errs), retry_res.2.1, retry_res.2.2)
                else retry_res
              | _ => retry_res
            | .err (.PartialFailure _ (some retry) _) =>
              let retry_res := pay_internal fuel payment_id none retry find_route now
                entropy ectr1 our_node_id best_block_height spap step.2
              (.ok (), retry_res.2.1, retry_res.2.2)
            | .err (.PartialFailure _ none _) => (.ok (), step.2, ectr1)
            | r => (r, step.2, ectr1)
        | none =>
          let step := retry_payment_with_route route payment_id onion_session_privs
            our_node_id best_block_height spap m
          match step.1 with
          | .err (.AllFailedResendSafe errs) =>
            let retry_res := pay_internal fuel payment_id none route_params find_route now
              entropy ectr1 our_node_id best_block_height spap step.2
            match retry_res.1 with
            | .err (.ParameterError (.APIMisuseError err)) =>
              if err.startsWith "Retries exhausted " then
                (.err (.AllFailedResendSafe errs), retry_res.2.1, retry_res.2.2)
              else retry_res
            | _ => retry_res
          | .err (.PartialFailure _ (some retry) _) =>
            let retry_res := pay_internal fuel payment_id none retry find_route now
              entropy ectr1 our_node_id best_block_height spap step.2
            (.ok (), retry_res.2.1, retry_res.2.2)
          | .err (.PartialFailure _ none _) => (.ok (), step.2, ectr1)
          | r => (r, step.2, ectr1)

/-- `send_payment` (source lines 405-424): `pay_internal` with initial send
info, reaping the registration on `AllFailedResendSafe`. -/
def send_payment (payment_hash : PaymentHash) (payment_secret : Option PaymentSecret)
    (payment_id : PaymentId) (retry_strategy : Retry) (route_params : RouteParameters)
    (find_route : RouteParameters → RResult Route String) (now : Nat)
    (entropy : Nat → Nat) (ectr : Nat) (our_node_id : PubKey) (best_block_height : Nat)
    (spap : SendPaymentAlongPath) (fuel : Nat) (m : OutboundMap) :
    RResult Unit PaymentSendFailure × OutboundMap × Nat :=
  let r := pay_internal fuel payment_id
    (some (payment_hash, payment_secret, none, retry_strategy)) route_params find_route now
    entropy ectr our_node_id best_block_height spap m
  match r.1 with
  | .err e => (.err e, remove_outbound_if_all_failed payment_id e r.2.1, r.2.2)
  | .ok _ => r

/-- `send_spontaneous_payment` (source lines 443-466): the preimage defaults to
a fresh entropy draw, the hash is SHA-256 of it (`sha` is the hash parameter),
and the flow is that of `send_payment` carrying the keysend preimage. -/
def send_spontaneous_payment (payment_preimage : Option PaymentPreimage)
    (payment_id : PaymentId) (retry_strategy : Retry) (route_params : RouteParameters)
    (find_route : RouteParameters → RResult Route String) (now : Nat)
    (sha : PaymentPreimage → PaymentHash) (entropy : Nat → Nat) (ectr : Nat)
    (our_node_id : PubKey) (best_block_height : Nat) (spap : SendPaymentAlongPath)
    (fuel : Nat) (m : OutboundMap) :
    RResult PaymentHash PaymentSendFailure × OutboundMap × Nat :=
  let drawn := match payment_preimage with
    | some p => (p, ectr)
    | none => (entropy ectr, ectr + 1)
  let payment_hash := sha drawn.1
  let r := pay_internal fuel payment_id
    (some (payment_hash, none, some drawn.1, retry_strategy)) route_params find_route now
    entropy drawn.2 our_node_id best_block_height spap m
  match r.1 with
  | .err e => (.err e, remove_outbound_if_all_failed payment_id e r.2.1, r.2.2)
  | .ok _ => (.ok payment_hash, r.2.1, r.2.2)

/-- `claim_htlc` (source lines 888-932): on the first preimage for a tracked,
not-yet-fulfilled payment push `PaymentSent` (fee from `get_pending_fee_msat`)
and mark it fulfilled; when claimed on-chain also drop the session and push
`PaymentPathSuccessful`. -/
def claim_htlc (payment_id : PaymentId) (payment_preimage : PaymentPreimage)
    (sha : PaymentPreimage → PaymentHash) (session_priv : SessionPriv) (path : Path)
    (from_onchain : Bool) (m : OutboundMap) (events : List Event) :
    OutboundMap × List Event :=
  match mapLookup m payment_id with
  | none => (m, events)
  | some payment =>
    let step1 : PendingOutboundPayment × List Event :=
      if !payment.is_fulfilled then
        (payment.mark_fulfilled,
         events ++ [.PaymentSent (some payment_id) payment_preimage (sha payment_preimage)
           payment.get_pending_fee_msat])
      else (payment, events)
    let step2 : PendingOutboundPayment × List Event :=
      if from_onchain then
        let removal := step1.1.remove session_priv (some path)
        if removal.2 then
          (removal.1, step1.2 ++
            [.PaymentPathSuccessful payment_id (some (sha payment_preimage)) path])
        else (removal.1, step1.2)
      else step1
    (mapUpdate m payment_id step2.1, step2.2)

/-- Modelled from the spec: `MIN_HTLC_RELAY_HOLDING_CELL_MILLIS` is an external
pacing constant of `channelmanager.rs`; its value plays no role in the engine. -/
def MIN_HTLC_RELAY_HOLDING_CELL_MILLIS : Nat := 100

/-- The retry parameters `fail_htlc` builds when the stored record has no
payment parameters, from the `payment_params` passed in with the HTLC
(source lines 1044-1051). -/
def fail_htlc_retry_fallback (payment_params : Option PaymentParameters) (path : Path) :
    Option RouteParameters :=
  match payment_params with
  | some params =>
    some { payment_params := params,
           final_value_msat := last_hop_fee path,
           final_cltv_expiry_delta :=
             match params.final_cltv_expiry_delta with
             | some delta => delta
             | none => last_hop_cltv path }
  | none => none

/-- `fail_htlc` (source lines 996-1121).  The onion failure is passed in
decoded (`network_update`, `short_channel_id`, `payment_retryable`), as the
decoder lives outside this module.  Duplicate session delivery and fulfilled
payments return early; otherwise the failed channel is recorded, retry
parameters are built (backfilling `final_cltv_expiry_delta`), an empty session
set of an abandoned payment emits `PaymentFailed` and removes the entry, and
the probe-aware path-failure event plus an optional retry nudge are pushed. -/
def fail_htlc (payment_hash : PaymentHash) (network_update : Option Nat)
    (short_channel_id : Option Nat) (payment_retryable : Bool) (path : Path)
    (session_priv : SessionPriv) (payment_id : PaymentId)
    (payment_params : Option PaymentParameters) (probing_cookie_secret : Nat)
    (cookie_hash : Nat → PaymentId → PaymentHash) (m : OutboundMap)
    (events : List Event) : OutboundMap × List Event :=
  match mapLookup m payment_id with
  | none => (m, events)
  | some payment =>
    let removal := payment.remove session_priv (some path)
    if !removal.2 then (m, events)
    else
      let payment1 := removal.1
      let m1 := mapUpdate m payment_id payment1
      if payment1.is_fulfilled then (m1, events)
      else
        let attempts_remaining := payment1.is_auto_retryable_now
        let payment2 := match short_channel_id with
          | some scid => payment1.insert_previously_failed_scid scid
          | none => payment1
        let step3 : PendingOutboundPayment × Option RouteParameters :=
          match payment2 with
          | .Retryable d =>
            match d.payment_params with
            | some params =>
              let params2 := if params.final_cltv_expiry_delta = none then
                  { params with final_cltv_expiry_delta := some (last_hop_cltv path) }
                else params
              (.Retryable { d with payment_params := some params2 },
               some { payment_params := params2,
                      final_value_msat := last_hop_fee path,
                      final_cltv_expiry_delta := params2.final_cltv_expiry_delta.getD 0 })
            | none => (payment2, fail_htlc_retry_fallback payment_params path)
          | _ => (payment2, fail_htlc_retry_fallback payment_params path)
        let payment3 := step3.1
        let retry0 := step3.2
        let m2 := mapUpdate m1 payment_id payment3
        let afm : Bool × Option Event × OutboundMap :=
          if payment3.remaining_parts = 0 then
            if payment3.abandoned then
              (true, some (.PaymentFailed payment_id (payment3.payment_hash.getD 0)),
               mapRemove m2 payment_id)
            else (true, none, m2)
          else (false, none, m2)
        let all_paths_failed := afm.1
        let full_failure_ev := afm.2.1
        let m3 := afm.2.2
        let pf : Event × Option Event :=
          if payment_is_probe cookie_hash payment_hash payment_id probing_cookie_secret then
            if !payment_retryable then
              (.ProbeSuccessful payment_id payment_hash path, none)
            else
              (.ProbeFailed payment_id payment_hash path short_channel_id, none)
          else
            let retry1 := match short_channel_id with
              | some scid => retry0.map (fun r =>
                  let pp2 := { r.payment_params with previously_failed_channels :=
                    r.payment_params.previously_failed_channels ++ [scid] }
                  { r with payment_params := pp2 })
              | none => retry0
            let pending_retry_ev :=
              if payment_retryable && attempts_remaining && retry1.isSome then
                some (.PendingHTLCsForwardable MIN_HTLC_RELAY_HOLDING_CELL_MILLIS)
              else none
            (.PaymentPathFailed (some payment_id) payment_hash (!payment_retryable)
              network_update all_paths_failed path short_channel_id retry1,
             pending_retry_ev)
        let events1 := events ++ [pf.1]
        let events2 := match full_failure_ev with
          | some ev => events1 ++ [ev]
          | none => events1
        let events3 := match pf.2 with
          | some ev => events2 ++ [ev]
          | none => events2
        (m3, events3)

/-- The event patterns that reset the idempotency timer in
`remove_stale_resolved_payments` (source lines 971-983): only `PaymentSent`,
`PaymentPathSuccessful` and `PaymentPathFailed` are matched. -/
def event_refs_payment (payment_id : PaymentId) : Event → Bool
  | .PaymentSent (some ev_payment_id) _ _ _ => decide (payment_id = ev_payment_id)
  | .PaymentPathSuccessful ev_payment_id _ _ => decide (payment_id = ev_payment_id)
  | .PaymentPathFailed (some ev_payment_id) _ _ _ _ _ _ _ => decide (payment_id = ev_payment_id)
  | _ => false

/-- The scan over the pending-events queue (source lines 971-983), with the
source's early `break`. -/
def stale_event_scan (payment_id : PaymentId) : List Event → Bool
  | [] => false
  | ev :: rest =>
    if event_refs_payment payment_id ev then true else stale_event_scan payment_id rest

/-- The body of the `retain` closure of `remove_stale_resolved_payments`
(source lines 967-993): `none` means the entry is dropped.  `ticks_limit`
stands for the external constant `IDEMPOTENCY_TIMEOUT_TICKS`. -/
def remove_stale_step (ticks_limit : Nat) (pending_events : List Event)
    (payment_id : PaymentId) : PendingOutboundPayment → Option PendingOutboundPayment
  | .Fulfilled session_privs h timer_ticks =>
    let no_remaining_entries :=
      session_privs.isEmpty && !stale_event_scan payment_id pending_events
    if no_remaining_entries then
      let t1 := wadd8 timer_ticks 1
      if t1 ≤ ticks_limit then some (.Fulfilled session_privs h t1) else none
    else some (.Fulfilled session_privs h 0)
  | p => some p

/-- `remove_stale_resolved_payments` (source lines 957-994). -/
def remove_stale_resolved_payments (ticks_limit : Nat) (pending_events : List Event)
    (m : OutboundMap) : OutboundMap :=
  m.filterMap (fun kv =>
    (remove_stale_step ticks_limit pending_events kv.1 kv.2).map (fun p => (kv.1, p)))

/-- The claim-side reading of "referenced by any event in the pending-events
queue": every event variant that carries a payment id, following the spec's
field lists, counts as a reference.  Kept separate from `event_refs_payment`,
which is the source's narrower match. -/
def event_references_payment_spec (payment_id : PaymentId) : Event → Bool
  | .PaymentSent (some pid) _ _ _ => decide (payment_id = pid)
  | .PaymentSent none _ _ _ => false
  | .PaymentPathSuccessful pid _ _ => decide (payment_id = pid)
  | .PaymentPathFailed (some pid) _ _ _ _ _ _ _ => decide (payment_id = pid)
  | .PaymentPathFailed none _ _ _ _ _ _ _ => false
  | .PaymentFailed pid _ => decide (payment_id = pid)
  | .PendingHTLCsForwardable _ => false
  | .ProbeSuccessful pid _ _ => decide (payment_id = pid)
  | .ProbeFailed pid _ _ _ => decide (payment_id = pid)

/-- Number of `PaymentSent` events in a queue. -/
def countPaymentSent (evs : List Event) : Nat :=
  evs.countP (fun e =>
    match e with
    | .PaymentSent _ _ _ _ => true
    | _ => false)

theorem mapLookup_mapUpdate_self {m : OutboundMap} {k : PaymentId}
    (h : mapLookup m k ≠ none) (w : PendingOutboundPayment) :
    mapLookup (mapUpdate m k w) k = some w := by
  induction m with
  | nil => simp [mapLookup] at h
  | cons kv rest ih =>
    obtain ⟨k0, v0⟩ := kv
    by_cases hk : k0 = k
    · subst hk
      simp [mapLookup, mapUpdate]
    · simp only [mapLookup, mapUpdate, if_neg hk] at h ⊢
      exact ih h

theorem mapLookup_mapUpdate_isSome {m : OutboundMap} {k : PaymentId}
    (h : mapLookup m k ≠ none) (w : PendingOutboundPayment) :
    mapLookup (mapUpdate m k w) k ≠ none := by
  rw [mapLookup_mapUpdate_self h w]
  exact Option.some_ne_none w

theorem remove_absent {p : PendingOutboundPayment} {s : SessionPriv} (pathOpt : Option Path)
    (h : s ∉ p.sessionSet) : p.remove s pathOpt = (p, false) := by
  cases p <;>
    · simp only [PendingOutboundPayment.sessionSet] at h
      simp [PendingOutboundPayment.remove, setRemove, h]

theorem mapUpdate_lookup_self : ∀ {m : OutboundMap} {k : PaymentId} {v : PendingOutboundPayment},
    mapLookup m k = some v → mapUpdate m k v = m := by
  intro m
  induction m with
  | nil => intro k v h; simp [mapLookup] at h
  | cons kv rest ih =>
    intro k v h
    obtain ⟨k0, v0⟩ := kv
    by_cases hk : k0 = k
    · subst hk
      have h' : v0 = v := by simpa [mapLookup] using h
      simp [mapUpdate, h']
    · simp only [mapLookup, if_neg hk] at h
      simp [mapUpdate, if_neg hk, ih h]

theorem path_check_loop_fst (our_node_id : PubKey) :
    ∀ ps : List Path, (path_check_loop our_node_id ps).1 = ps.map (check_path our_node_id)
  | [] => rfl
  | p :: rest => by
    simp only [path_check_loop, List.map]
    cases h : check_path our_node_id p with
    | ok v => simpa [h] using path_check_loop_fst our_node_id rest
    | err e => simpa [h] using path_check_loop_fst our_node_id rest

/-- Claim C8 (source lines 765-790): `pay_route_internal` rejects synchronously
with a `ParameterError` a route with zero paths, and a multi-path route without
a payment secret; past those checks, any path of length outside `1..=20` or
passing through our own node at a non-terminal hop is rejected with a
`PathParameterError` whose per-path results follow the route's path order.  In
each case the registry is untouched. -/
theorem c8_pay_route_internal_validation (route : Route) (payment_hash : PaymentHash)
    (payment_secret : Option PaymentSecret) (keysend_preimage : Option PaymentPreimage)
    (payment_id : PaymentId) (recv_value_msat : Option Nat)
    (onion_session_privs : List SessionPriv) (our_node_id : PubKey)
    (best_block_height : Nat) (spap : SendPaymentAlongPath) (m : OutboundMap) :
    (route.paths = [] →
      pay_route_internal route payment_hash payment_secret keysend_preimage payment_id
          recv_value_msat onion_session_privs our_node_id best_block_height spap m =
        (.err (.ParameterError (.InvalidRoute "There must be at least one path to send over")), m)) ∧
    (payment_secret = none → route.paths.length > 1 →
      pay_route_internal route payment_hash payment_secret keysend_preimage payment_id
          recv_value_msat onion_session_privs our_node_id best_block_height spap m =
        (.err (.ParameterError (.APIMisuseError "Payment secret is required for multi-path payments")), m)) ∧
    ((payment_secret = none → route.paths.length ≤ 1) → route.paths ≠ [] →
      (∃ p ∈ route.paths, (check_path our_node_id p).isErr = true) →
      pay_route_internal route payment_hash payment_secret keysend_preimage payment_id
          recv_value_msat onion_session_privs our_node_id best_block_height spap m =
        (.err (.PathParameterError (route.paths.map (check_path our_node_id))), m)) := by
  refine ⟨?_, ?_, ?_⟩
  · intro h
    have h1 : route.paths.length < 1 := by simp [h]
    simp only [pay_route_internal, if_pos h1]
  · intro hsec hlen
    have h1 : ¬ route.paths.length < 1 := by omega
    simp only [pay_route_internal, if_neg h1, if_pos (And.intro hsec hlen)]
  · intro hsec hne hbad
    have h1 : ¬ route.paths.length < 1 := by
      have := List.length_pos.mpr hne
      omega
    have h2 : ¬ (payment_secret = none ∧ route.paths.length > 1) := by
      rintro ⟨hs, hl⟩
      have := hsec hs
      omega
    have hany : ((route.paths.map (check_path our_node_id)).any RResult.isErr) = true := by
      rw [List.any_eq_true]
      obtain ⟨p, hp, herr⟩ := hbad
      exact ⟨check_path our_node_id p, List.mem_map_of_mem _ hp, herr⟩
    simp only [pay_route_internal, if_neg h1, if_neg h2, path_check_loop_fst, hany,
      eq_self_iff_true, if_true]

/-- Witness for C8 at three concrete calls, one per validation failure. -/
theorem c8_pay_route_internal_validation_witness :
    (pay_route_internal ⟨[], none⟩ 7 none none 1 none [] 99 0
        (fun _ _ _ _ _ _ _ _ _ => .ok ()) []).1 =
      .err (.ParameterError (.InvalidRoute "There must be at least one path to send over")) ∧
    (pay_route_internal ⟨[[⟨1, 2, 3⟩], [⟨4, 5, 6⟩]], none⟩ 7 none none 1 none [8, 9] 99 0
        (fun _ _ _ _ _ _ _ _ _ => .ok ()) []).1 =
      .err (.ParameterError (.APIMisuseError "Payment secret is required for multi-path payments")) ∧
    (pay_route_internal ⟨[[]], none⟩ 7 none none 1 none [8] 99 0
        (fun _ _ _ _ _ _ _ _ _ => .ok ()) []).1 =
      .err (.PathParameterError [.err (.InvalidRoute "Path didn't go anywhere/had bogus size")]) := by
  refine ⟨?_, ?_, ?_⟩
  · rw [(c8_pay_route_internal_validation ⟨[], none⟩ 7 none none 1 none [] 99 0
      (fun _ _ _ _ _ _ _ _ _ => .ok ()) []).1 rfl]
  · rw [(c8_pay_route_internal_validation ⟨[[⟨1, 2, 3⟩], [⟨4, 5, 6⟩]], none⟩ 7 none none 1 none
      [8, 9] 99 0 (fun _ _ _ _ _ _ _ _ _ => .ok ()) []).2.1 rfl (by decide)]
  · rw [(c8_pay_route_internal_validation ⟨[[]], none⟩ 7 none none 1 none [8] 99 0
      (fun _ _ _ _ _ _ _ _ _ => .ok ()) []).2.2 (fun _ => by decide) (by decide)
      ⟨[], by decide, by decide⟩]
    decide

/-- Claim C9 (source lines 179-220): inserting a session secret that is already
in the session set returns `false` and leaves the payment — in particular its
`pending_amt_msat` and `pending_fee_msat` — unchanged, and removing an absent
session secret likewise returns `false` and changes nothing. -/
theorem c9_session_set_idempotence (p : PendingOutboundPayment) (s : SessionPriv)
    (path : Path) (pathOpt : Option Path) :
    (s ∈ p.sessionSet → p.insert s path = (p, false)) ∧
    (s ∉ p.sessionSet → p.remove s pathOpt = (p, false)) := by
  constructor
  · intro hmem
    cases p with
    | Legacy sp =>
      simp only [PendingOutboundPayment.sessionSet] at hmem
      simp [PendingOutboundPayment.insert, setInsert, hmem]
    | Retryable d =>
      simp only [PendingOutboundPayment.sessionSet] at hmem
      simp [PendingOutboundPayment.insert, setInsert, hmem]
    | Fulfilled sp h t => simp [PendingOutboundPayment.insert]
    | Abandoned sp h => simp [PendingOutboundPayment.insert]
  · intro hmem
    cases p with
    | Legacy sp =>
      simp only [PendingOutboundPayment.sessionSet] at hmem
      simp [PendingOutboundPayment.remove, setRemove, hmem]
    | Retryable d =>
      simp only [PendingOutboundPayment.sessionSet] at hmem
      simp [PendingOutboundPayment.remove, setRemove, hmem]
    | Fulfilled sp h t =>
      simp only [PendingOutboundPayment.sessionSet] at hmem
      simp [PendingOutboundPayment.remove, setRemove, hmem]
    | Abandoned sp h =>
      simp only [PendingOutboundPayment.sessionSet] at hmem
      simp [PendingOutboundPayment.remove, setRemove, hmem]

/-- Witness for C9 at a concrete payment. -/
theorem c9_session_set_idempotence_witness :
    (PendingOutboundPayment.Legacy [5]).insert 5 [] = (.Legacy [5], false) ∧
    (PendingOutboundPayment.Legacy [5]).remove 7 none = (.Legacy [5], false) :=
  ⟨(c9_session_set_idempotence (.Legacy [5]) 5 [] none).1 (by decide),
   (c9_session_set_idempotence (.Legacy [5]) 7 [] none).2 (by decide)⟩

/-- Claim C10 (source lines 201-220): a payment in a terminal state
(`Fulfilled` or `Abandoned`) rejects every session insertion: `insert` returns
`false` and the payment is entirely unchanged, whatever the secret and path. -/
theorem c10_terminal_state_insert_rejected (p : PendingOutboundPayment)
    (s : SessionPriv) (path : Path)
    (h : p.is_fulfilled = true ∨ p.abandoned = true) :
    p.insert s path = (p, false) := by
  cases p <;>
    simp_all [PendingOutboundPayment.is_fulfilled, PendingOutboundPayment.abandoned,
      PendingOutboundPayment.insert]

/-- Witness for C10 at concrete terminal payments. -/
theorem c10_terminal_state_insert_rejected_witness :
    (PendingOutboundPayment.Fulfilled [4] (some 2) 1).insert 9 [⟨1, 2, 3⟩] =
      (.Fulfilled [4] (some 2) 1, false) ∧
    (PendingOutboundPayment.Abandoned [] 5).insert 9 [] = (.Abandoned [] 5, false) :=
  ⟨c10_terminal_state_insert_rejected _ 9 [⟨1, 2, 3⟩] (Or.inl (by decide)),
   c10_terminal_state_insert_rejected _ 9 [] (Or.inr (by decide))⟩

/-- Claim C6 (source lines 426-441 with 881-886): a `send_payment_with_route`
call whose route fails per-path validation.  The spec and the
`PaymentSendFailure` documentation (source lines 333-347) promise that no
payment state is created, but `add_new_pending_payment` has already registered
the payment and `remove_outbound_if_all_failed` reaps it only on
`AllFailedResendSafe`, so the `Retryable` entry survives the
`PathParameterError` return. -/
theorem c6_validation_failure_leaves_state :
    (send_payment_with_route ⟨[[⟨99, 10, 5⟩, ⟨1, 10, 5⟩]], none⟩ 7 none 1 [11] 99 0
        (fun _ _ _ _ _ _ _ _ _ => .ok ()) []).1 =
      .err (.PathParameterError
        [.err (.InvalidRoute "Path went through us but wasn't a simple rebalance loop to us")]) ∧
    mapLookup (send_payment_with_route ⟨[[⟨99, 10, 5⟩, ⟨1, 10, 5⟩]], none⟩ 7 none 1 [11] 99 0
        (fun _ _ _ _ _ _ _ _ _ => .ok ()) []).2 1 ≠ none := by
  decide

/-- Counterexample to claim C5 as stated: `fail_htlc` on a `Fulfilled` payment
whose session set still contains the delivered `session_priv` pushes no event,
but it does mutate the registry — the session is removed from the set before
the fulfilled check returns early (source lines 1014-1021). -/
theorem c5_counterexample_fulfilled_removal_changes_state :
    (fail_htlc 3 none none true [⟨2, 10, 5⟩] 7 1 none 0 (fun _ _ => 0)
        [(1, .Fulfilled [7] (some 3) 0)] []).1 ≠
      [(1, PendingOutboundPayment.Fulfilled [7] (some 3) 0)] ∧
    (fail_htlc 3 none none true [⟨2, 10, 5⟩] 7 1 none 0 (fun _ _ => 0)
        [(1, .Fulfilled [7] (some 3) 0)] []).2 = ([] : List Event) ∧
    (PendingOutboundPayment.Fulfilled [7] (some 3) 0).is_fulfilled = true := by
  decide

/-- Claim C5 as amended (source lines 1014-1022, 179-199): if the delivered
`session_priv` is absent from the located payment's session set, or the
payment is `Fulfilled`, `fail_htlc` returns early having pushed no event; the
registry is unchanged in the absent case, while for a `Fulfilled` payment the
only change is the removal of the delivered session from its set. -/
theorem c5_fail_htlc_early_return (payment_hash : PaymentHash)
    (network_update short_channel_id : Option Nat) (payment_retryable : Bool)
    (path : Path) (session_priv : SessionPriv) (payment_id : PaymentId)
    (payment_params : Option PaymentParameters) (probing_cookie_secret : Nat)
    (cookie_hash : Nat → PaymentId → PaymentHash) (m : OutboundMap) (events : List Event)
    (payment : PendingOutboundPayment)
    (hfound : mapLookup m payment_id = some payment)
    (h : session_priv ∉ payment.sessionSet ∨ payment.is_fulfilled = true) :
    (fail_htlc payment_hash network_update short_channel_id payment_retryable path
        session_priv payment_id payment_params probing_cookie_secret cookie_hash m events).2 =
      events ∧
    (session_priv ∉ payment.sessionSet →
      (fail_htlc payment_hash network_update short_channel_id payment_retryable path
          session_priv payment_id payment_params probing_cookie_secret cookie_hash m events).1 =
        m) ∧
    (payment.is_fulfilled = true →
      (fail_htlc payment_hash network_update short_channel_id payment_retryable path
          session_priv payment_id payment_params probing_cookie_secret cookie_hash m events).1 =
        mapUpdate m payment_id (payment.remove session_priv (some path)).1) := by
  by_cases hmem : session_priv ∈ payment.sessionSet
  · have hful : payment.is_fulfilled = true := by
      rcases h with habs | hful
      · exact absurd hmem habs
      · exact hful
    cases payment with
    | Fulfilled sp ph t =>
      have hsp : session_priv ∈ sp := hmem
      refine ⟨?_, ?_, ?_⟩
      · simp [fail_htlc, hfound, PendingOutboundPayment.remove, setRemove, hsp,
          PendingOutboundPayment.is_fulfilled]
      · intro habs
        exact absurd hsp habs
      · intro _
        simp [fail_htlc, hfound, PendingOutboundPayment.remove, setRemove, hsp,
          PendingOutboundPayment.is_fulfilled]
    | Legacy sp => simp [PendingOutboundPayment.is_fulfilled] at hful
    | Retryable d => simp [PendingOutboundPayment.is_fulfilled] at hful
    | Abandoned sp ph => simp [PendingOutboundPayment.is_fulfilled] at hful
  · have hrem := remove_absent (p := payment) (s := session_priv) (some path) hmem
    refine ⟨?_, ?_, ?_⟩
    · simp [fail_htlc, hfound, hrem]
    · intro _
      simp [fail_htlc, hfound, hrem]
    · intro hful
      simp only [fail_htlc, hfound, hrem]
      simp [mapUpdate_lookup_self hfound]

/-- Witness for the amended C5: both early-return cases at concrete states. -/
theorem c5_fail_htlc_early_return_witness :
    ((fail_htlc 3 none none true [⟨2, 10, 5⟩] 9 1 none 0 (fun _ _ => 0)
        [(1, .Retryable ⟨none, ⟨0⟩, none, [7], 3, none, none, 10, some 0, 10, 0⟩)] []).2 =
      ([] : List Event) ∧
     (fail_htlc 3 none none true [⟨2, 10, 5⟩] 9 1 none 0 (fun _ _ => 0)
        [(1, .Retryable ⟨none, ⟨0⟩, none, [7], 3, none, none, 10, some 0, 10, 0⟩)] []).1 =
      [(1, .Retryable ⟨none, ⟨0⟩, none, [7], 3, none, none, 10, some 0, 10, 0⟩)]) ∧
    ((fail_htlc 3 none none true [⟨2, 10, 5⟩] 7 1 none 0 (fun _ _ => 0)
        [(1, .Fulfilled [7] (some 3) 0)] []).2 = ([] : List Event) ∧
     (fail_htlc 3 none none true [⟨2, 10, 5⟩] 7 1 none 0 (fun _ _ => 0)
        [(1, .Fulfilled [7] (some 3) 0)] []).1 =
      mapUpdate [(1, .Fulfilled [7] (some 3) 0)] 1
        ((PendingOutboundPayment.Fulfilled [7] (some 3) 0).remove 7 (some [⟨2, 10, 5⟩])).1) := by
  constructor
  · have h := c5_fail_htlc_early_return 3 none none true [⟨2, 10, 5⟩] 9 1 none 0
      (fun _ _ => 0) [(1, .Retryable ⟨none, ⟨0⟩, none, [7], 3, none, none, 10, some 0, 10, 0⟩)]
      [] (.Retryable ⟨none, ⟨0⟩, none, [7], 3, none, none, 10, some 0, 10, 0⟩)
      (by decide) (Or.inl (by decide))
    exact ⟨h.1, h.2.1 (by decide)⟩
  · have h := c5_fail_htlc_early_return 3 none none true [⟨2, 10, 5⟩] 7 1 none 0
      (fun _ _ => 0) [(1, .Fulfilled [7] (some 3) 0)] [] (.Fulfilled [7] (some 3) 0)
      (by decide) (Or.inr (by decide))
    exact ⟨h.1, h.2.2 (by decide)⟩

theorem countPaymentSent_append (a b : List Event) :
    countPaymentSent (a ++ b) = countPaymentSent a + countPaymentSent b :=
  List.countP_append _ a b

theorem mark_fulfilled_sessionSet (p : PendingOutboundPayment) :
    (p.mark_fulfilled).sessionSet = p.sessionSet := rfl

theorem mark_fulfilled_is_fulfilled (p : PendingOutboundPayment) :
    (p.mark_fulfilled).is_fulfilled = true := rfl

theorem remove_fulfilled_eq (s : List SessionPriv) (h : Option PaymentHash) (t : Nat)
    (sp : SessionPriv) (po : Option Path) :
    (PendingOutboundPayment.Fulfilled s h t).remove sp po =
      (.Fulfilled (setRemove s sp).1 h t, (setRemove s sp).2) := by
  simp [PendingOutboundPayment.remove]

theorem countPaymentSent_second_claim (payment_id : PaymentId) (preimage : PaymentPreimage)
    (sha : PaymentPreimage → PaymentHash) (m' : OutboundMap) (evs : List Event)
    (q : PendingOutboundPayment) (hq : mapLookup m' payment_id = some q)
    (hful : q.is_fulfilled = true) (sp2 : SessionPriv) (path2 : Path) (fo2 : Bool) :
    countPaymentSent (claim_htlc payment_id preimage sha sp2 path2 fo2 m' evs).2 =
      countPaymentSent evs := by
  have hb : (!q.is_fulfilled) = false := by rw [hful]; rfl
  cases fo2 with
  | false => simp [claim_htlc, hq, hb]
  | true =>
    rcases hrm : q.remove sp2 (some path2) with ⟨p3, b⟩
    cases b with
    | false => simp [claim_htlc, hq, hb, hrm]
    | true => simp [claim_htlc, hq, hb, hrm, countPaymentSent_append, countPaymentSent]

/-- Claim C4 (source lines 888-932, 148-159): `claim_htlc` on a tracked,
not-yet-fulfilled payment pushes exactly one `PaymentSent` event, whose
`fee_paid_msat` is the payment's `pending_fee_msat` at call time, and moves the
payment to `Fulfilled`; the `mark_fulfilled` transition carries the session set
across unchanged (so the stored set is untouched unless an on-chain claim drops
the claimed session afterwards), and a second `claim_htlc` for the same
payment pushes no further `PaymentSent`. -/
theorem c4_claim_htlc_payment_sent (payment_id : PaymentId)
    (payment_preimage : PaymentPreimage) (sha : PaymentPreimage → PaymentHash)
    (session_priv : SessionPriv) (path : Path) (from_onchain : Bool) (m : OutboundMap)
    (events : List Event) (payment : PendingOutboundPayment)
    (hfound : mapLookup m payment_id = some payment)
    (hnotful : payment.is_fulfilled = false) :
    (∃ tail,
      (claim_htlc payment_id payment_preimage sha session_priv path from_onchain m events).2 =
        events ++ [.PaymentSent (some payment_id) payment_preimage (sha payment_preimage)
          payment.get_pending_fee_msat] ++ tail ∧
      countPaymentSent tail = 0) ∧
    (payment.mark_fulfilled).sessionSet = payment.sessionSet ∧
    (∃ q, mapLookup (claim_htlc payment_id payment_preimage sha session_priv path
        from_onchain m events).1 payment_id = some q ∧
      q.is_fulfilled = true ∧
      (from_onchain = false → q.sessionSet = payment.sessionSet)) ∧
    (∀ sp2 path2 fo2,
      countPaymentSent (claim_htlc payment_id payment_preimage sha sp2 path2 fo2
        (claim_htlc payment_id payment_preimage sha session_priv path from_onchain m events).1
        (claim_htlc payment_id payment_preimage sha session_priv path from_onchain m events).2).2 =
      countPaymentSent (claim_htlc payment_id payment_preimage sha session_priv path
        from_onchain m events).2) := by
  have hne : mapLookup m payment_id ≠ none := by
    rw [hfound]; exact Option.some_ne_none _
  have hb : (!payment.is_fulfilled) = true := by rw [hnotful]; rfl
  cases hfo : from_onchain with
  | false =>
    have hr : claim_htlc payment_id payment_preimage sha session_priv path false m events =
        (mapUpdate m payment_id payment.mark_fulfilled,
         events ++ [.PaymentSent (some payment_id) payment_preimage (sha payment_preimage)
           payment.get_pending_fee_msat]) := by
      simp [claim_htlc, hfound, hb]
    rw [hr]
    refine ⟨⟨[], by simp, rfl⟩, rfl, ?_, ?_⟩
    · exact ⟨payment.mark_fulfilled, mapLookup_mapUpdate_self hne _, rfl, fun _ => rfl⟩
    · intro sp2 path2 fo2
      exact countPaymentSent_second_claim payment_id payment_preimage sha _ _ _
        (mapLookup_mapUpdate_self hne _) (mark_fulfilled_is_fulfilled payment) sp2 path2 fo2
  | true =>
    rcases hrm : (payment.mark_fulfilled).remove session_priv (some path) with ⟨p2, b⟩
    have hrm2 : (payment.mark_fulfilled).remove session_priv (some path) =
        (.Fulfilled (setRemove payment.sessionSet session_priv).1 payment.payment_hash 0,
         (setRemove payment.sessionSet session_priv).2) := by
      rw [PendingOutboundPayment.mark_fulfilled, remove_fulfilled_eq]
    have hp2 : p2 = .Fulfilled (setRemove payment.sessionSet session_priv).1
        payment.payment_hash 0 := by
      have := hrm.symm.trans hrm2
      exact congrArg Prod.fst this
    have hp2ful : p2.is_fulfilled = true := by rw [hp2]; rfl
    cases b with
    | false =>
      have hr : claim_htlc payment_id payment_preimage sha session_priv path true m events =
          (mapUpdate m payment_id p2,
           events ++ [.PaymentSent (some payment_id) payment_preimage (sha payment_preimage)
             payment.get_pending_fee_msat]) := by
        simp [claim_htlc, hfound, hb, hrm]
      rw [hr]
      refine ⟨⟨[], by simp, rfl⟩, rfl, ?_, ?_⟩
      · exact ⟨p2, mapLookup_mapUpdate_self hne _, hp2ful, fun hcontr => by cases hcontr⟩
      · intro sp2 path2 fo2
        exact countPaymentSent_second_claim payment_id payment_preimage sha _ _ _
          (mapLookup_mapUpdate_self hne _) hp2ful sp2 path2 fo2
    | true =>
      have hr : claim_htlc payment_id payment_preimage sha session_priv path true m events =
          (mapUpdate m payment_id p2,
           (events ++ [.PaymentSent (some payment_id) payment_preimage (sha payment_preimage)
             payment.get_pending_fee_msat]) ++
           [.PaymentPathSuccessful payment_id (some (sha payment_preimage)) path]) := by
        simp [claim_htlc, hfound, hb, hrm]
      rw [hr]
      refine ⟨⟨[.PaymentPathSuccessful payment_id (some (sha payment_preimage)) path],
        by simp, rfl⟩, rfl, ?_, ?_⟩
      · exact ⟨p2, mapLookup_mapUpdate_self hne _, hp2ful, fun hcontr => by cases hcontr⟩
      · intro sp2 path2 fo2
        exact countPaymentSent_second_claim payment_id payment_preimage sha _ _ _
          (mapLookup_mapUpdate_self hne _) hp2ful sp2 path2 fo2

/-- Witness for C4 at a concrete registry. -/
theorem c4_claim_htlc_payment_sent_witness :
    (∃ tail,
      (claim_htlc 3 4 (fun n => n + 100) 7 [⟨2, 10, 5⟩] false
        [(3, .Retryable ⟨none, ⟨0⟩, none, [7], 5, none, none, 10, some 2, 10, 0⟩)] []).2 =
        [] ++ [.PaymentSent (some 3) 4 104
          (PendingOutboundPayment.Retryable
            ⟨none, ⟨0⟩, none, [7], 5, none, none, 10, some 2, 10, 0⟩).get_pending_fee_msat] ++
          tail ∧
      countPaymentSent tail = 0) ∧
    ((PendingOutboundPayment.Retryable
      ⟨none, ⟨0⟩, none, [7], 5, none, none, 10, some 2, 10, 0⟩).mark_fulfilled).sessionSet =
      (PendingOutboundPayment.Retryable
        ⟨none, ⟨0⟩, none, [7], 5, none, none, 10, some 2, 10, 0⟩).sessionSet ∧
    (∃ q, mapLookup (claim_htlc 3 4 (fun n => n + 100) 7 [⟨2, 10, 5⟩] false
        [(3, .Retryable ⟨none, ⟨0⟩, none, [7], 5, none, none, 10, some 2, 10, 0⟩)] []).1 3 =
        some q ∧ q.is_fulfilled = true ∧
      (false = false → q.sessionSet =
        (PendingOutboundPayment.Retryable
          ⟨none, ⟨0⟩, none, [7], 5, none, none, 10, some 2, 10, 0⟩).sessionSet)) ∧
    (∀ sp2 path2 fo2,
      countPaymentSent (claim_htlc 3 4 (fun n => n + 100) sp2 path2 fo2
        (claim_htlc 3 4 (fun n => n + 100) 7 [⟨2, 10, 5⟩] false
          [(3, .Retryable ⟨none, ⟨0⟩, none, [7], 5, none, none, 10, some 2, 10, 0⟩)] []).1
        (claim_htlc 3 4 (fun n => n + 100) 7 [⟨2, 10, 5⟩] false
          [(3, .Retryable ⟨none, ⟨0⟩, none, [7], 5, none, none, 10, some 2, 10, 0⟩)] []).2).2 =
      countPaymentSent (claim_htlc 3 4 (fun n => n + 100) 7 [⟨2, 10, 5⟩] false
        [(3, .Retryable ⟨none, ⟨0⟩, none, [7], 5, none, none, 10, some 2, 10, 0⟩)] []).2) :=
  c4_claim_htlc_payment_sent 3 4 (fun n => n + 100) 7 [⟨2, 10, 5⟩] false
    [(3, .Retryable ⟨none, ⟨0⟩, none, [7], 5, none, none, 10, some 2, 10, 0⟩)] []
    (.Retryable ⟨none, ⟨0⟩, none, [7], 5, none, none, 10, some 2, 10, 0⟩)
    (by decide) (by decide)

theorem stale_event_scan_eq_any (payment_id : PaymentId) :
    ∀ evs : List Event, stale_event_scan payment_id evs = evs.any (event_refs_payment payment_id)
  | [] => rfl
  | ev :: rest => by
    simp only [stale_event_scan, List.any_cons]
    cases h : event_refs_payment payment_id ev with
    | true => simp
    | false => simp [stale_event_scan_eq_any payment_id rest]

theorem mapLookup_eq_none_of_not_key : ∀ {m : OutboundMap} {k : PaymentId},
    k ∉ m.map Prod.fst → mapLookup m k = none := by
  intro m
  induction m with
  | nil => intro k _; rfl
  | cons kv rest ih =>
    intro k hk
    obtain ⟨k0, v0⟩ := kv
    simp only [List.map_cons, List.mem_cons] at hk
    push_neg at hk
    simp only [mapLookup, if_neg hk.1.symm]
    exact ih hk.2

theorem mapLookup_filterMap_none
    (f : PaymentId → PendingOutboundPayment → Option PendingOutboundPayment) :
    ∀ {m : OutboundMap} {k : PaymentId}, k ∉ m.map Prod.fst →
      mapLookup (m.filterMap fun kv => (f kv.1 kv.2).map (fun w => (kv.1, w))) k = none := by
  intro m
  induction m with
  | nil => intro k _; rfl
  | cons kv rest ih =>
    intro k hk
    obtain ⟨k0, v0⟩ := kv
    simp only [List.map_cons, List.mem_cons] at hk
    push_neg at hk
    cases hf : f k0 v0 with
    | none => simpa [List.filterMap_cons, hf] using ih hk.2
    | some w =>
      simp only [List.filterMap_cons, hf, Option.map_some', mapLookup, if_neg hk.1.symm]
      exact ih hk.2

theorem mapLookup_filterMap
    (f : PaymentId → PendingOutboundPayment → Option PendingOutboundPayment)
    {m : OutboundMap} {k : PaymentId} {p : PendingOutboundPayment}
    (hnd : (m.map Prod.fst).Nodup) (h : mapLookup m k = some p) :
    mapLookup (m.filterMap fun kv => (f kv.1 kv.2).map (fun w => (kv.1, w))) k = f k p := by
  induction m with
  | nil => simp [mapLookup] at h
  | cons kv rest ih =>
    obtain ⟨k0, v0⟩ := kv
    simp only [List.map_cons, List.nodup_cons] at hnd
    by_cases hk : k0 = k
    · subst hk
      have hp : v0 = p := by simpa [mapLookup] using h
      subst hp
      cases hf : f k0 v0 with
      | none =>
        simp only [List.filterMap_cons, hf, Option.map_none']
        rw [mapLookup_filterMap_none f hnd.1]
      | some w =>
        simp [List.filterMap_cons, hf, mapLookup, hf]
    · simp only [mapLookup, if_neg hk] at h
      cases hf : f k0 v0 with
      | none => simpa [List.filterMap_cons, hf] using ih hnd.2 h
      | some w =>
        simp only [List.filterMap_cons, hf, Option.map_some', mapLookup, if_neg hk]
        exact ih hnd.2 h

/-- Counterexample to claim C7 as stated: a `Fulfilled` entry with an empty
session set whose payment id is referenced by a `PaymentFailed` event in the
queue is still removed — the retain scan (source lines 971-983) matches only
`PaymentSent`, `PaymentPathSuccessful` and `PaymentPathFailed`, so the
reference does not reset the counter and, at the threshold, the entry is gone. -/
theorem c7_counterexample_payment_failed_reference_ignored :
    remove_stale_resolved_payments 3 [.PaymentFailed 5 9] [(5, .Fulfilled [] (some 9) 3)] =
      [] ∧
    event_references_payment_spec 5 (.PaymentFailed 5 9) = true := by
  decide

/-- Claim C7 as amended (source lines 957-994): during
`remove_stale_resolved_payments`, a `Fulfilled` entry with empty session set
that is referenced by a `PaymentSent`, `PaymentPathSuccessful` or
`PaymentPathFailed` event in the queue is retained with its counter reset to
zero; with no such reference its counter is incremented and the entry is
removed exactly when the incremented counter exceeds the idempotency limit;
non-`Fulfilled` entries are kept unchanged and `Fulfilled` entries with
non-empty session sets are retained (counter reset). -/
theorem c7_remove_stale_resolved_payments (ticks_limit : Nat)
    (pending_events : List Event) (m : OutboundMap) (payment_id : PaymentId)
    (p : PendingOutboundPayment) (hnd : (m.map Prod.fst).Nodup)
    (hfound : mapLookup m payment_id = some p) :
    (∀ s h t, p = .Fulfilled s h t → s = [] →
      pending_events.any (event_refs_payment payment_id) = true →
      mapLookup (remove_stale_resolved_payments ticks_limit pending_events m) payment_id =
        some (.Fulfilled s h 0)) ∧
    (∀ s h t, p = .Fulfilled s h t → s = [] →
      pending_events.any (event_refs_payment payment_id) = false →
      mapLookup (remove_stale_resolved_payments ticks_limit pending_events m) payment_id =
        (if wadd8 t 1 ≤ ticks_limit then some (.Fulfilled s h (wadd8 t 1)) else none)) ∧
    (∀ s h t, p = .Fulfilled s h t → s ≠ [] →
      mapLookup (remove_stale_resolved_payments ticks_limit pending_events m) payment_id =
        some (.Fulfilled s h 0)) ∧
    (p.is_fulfilled = false →
      mapLookup (remove_stale_resolved_payments ticks_limit pending_events m) payment_id =
        some p) := by
  have hbase :
      mapLookup (remove_stale_resolved_payments ticks_limit pending_events m) payment_id =
        remove_stale_step ticks_limit pending_events payment_id p :=
    mapLookup_filterMap (remove_stale_step ticks_limit pending_events) hnd hfound
  refine ⟨?_, ?_, ?_, ?_⟩
  · intro s h t hp hs href
    subst hp hs
    rw [hbase]
    simp [remove_stale_step, stale_event_scan_eq_any, href]
  · intro s h t hp hs href
    subst hp hs
    rw [hbase]
    simp [remove_stale_step, stale_event_scan_eq_any, href]
  · intro s h t hp hs
    subst hp
    rw [hbase]
    cases s with
    | nil => exact absurd rfl hs
    | cons a s' => simp [remove_stale_step]
  · intro hnf
    rw [hbase]
    cases p with
    | Fulfilled s h t => simp [PendingOutboundPayment.is_fulfilled] at hnf
    | Legacy s => rfl
    | Retryable d => rfl
    | Abandoned s h => rfl

/-- Witness for the amended C7: a referenced entry is kept with a reset
counter, and an unreferenced one at the limit is removed. -/
theorem c7_remove_stale_resolved_payments_witness :
    mapLookup (remove_stale_resolved_payments 3 [.PaymentSent (some 5) 0 9 none]
      [(5, .Fulfilled [] (some 9) 1)]) 5 = some (.Fulfilled [] (some 9) 0) ∧
    mapLookup (remove_stale_resolved_payments 3 [] [(6, .Fulfilled [] (some 9) 3)]) 6 =
      none := by
  constructor
  · exact (c7_remove_stale_resolved_payments 3 [.PaymentSent (some 5) 0 9 none]
      [(5, .Fulfilled [] (some 9) 1)] 5 (.Fulfilled [] (some 9) 1) (by decide)
      (by decide)).1 [] (some 9) 1 rfl rfl (by decide)
  · have h := (c7_remove_stale_resolved_payments 3 []
      [(6, .Fulfilled [] (some 9) 3)] 6 (.Fulfilled [] (some 9) 3) (by decide)
      (by decide)).2.1 [] (some 9) 3 rfl rfl (by decide)
    rw [h]
    decide

theorem insert_retryable_step (d : RetryableData) (s : SessionPriv) (path : Path) :
    ∃ d2 : RetryableData,
      ((PendingOutboundPayment.Retryable d).insert s path).1 = .Retryable d2 ∧
      d2.attempts = d.attempts ∧
      s ∈ d2.session_privs ∧
      (∀ x ∈ d.session_privs, x ∈ d2.session_privs) := by
  by_cases hmem : s ∈ d.session_privs
  · exact ⟨d, by simp [PendingOutboundPayment.insert, setInsert, hmem], rfl, hmem,
      fun x hx => hx⟩
  · refine ⟨{ d with
      session_privs := s :: d.session_privs,
      pending_amt_msat := wadd d.pending_amt_msat (last_hop_fee path),
      pending_fee_msat := d.pending_fee_msat.map (fun f => wadd f (get_path_fees path)) },
      ?_, rfl, List.mem_cons_self s _, fun x hx => List.mem_cons_of_mem s hx⟩
    simp [PendingOutboundPayment.insert, setInsert, hmem]

theorem foldl_insert_retryable (l : List (Path × SessionPriv)) :
    ∀ d : RetryableData,
    ∃ d2 : RetryableData,
      (l.foldl (fun (p : PendingOutboundPayment) (ps : Path × SessionPriv) =>
        (p.insert ps.2 ps.1).1) (PendingOutboundPayment.Retryable d)) = .Retryable d2 ∧
      d2.attempts = d.attempts ∧
      (∀ x ∈ d.session_privs, x ∈ d2.session_privs) ∧
      (∀ ps ∈ l, ps.2 ∈ d2.session_privs) := by
  induction l with
  | nil =>
    intro d
    exact ⟨d, rfl, rfl, fun _ hx => hx, by simp⟩
  | cons a rest ih =>
    intro d
    obtain ⟨d1, hstep, hatt1, hs1, hsup1⟩ := insert_retryable_step d a.2 a.1
    obtain ⟨d2, hfold, hatt2, hsup2, hmem2⟩ := ih d1
    refine ⟨d2, ?_, hatt2.trans hatt1, fun x hx => hsup2 x (hsup1 x hx), ?_⟩
    · simp only [List.foldl_cons]
      rw [hstep]
      exact hfold
    · intro ps hps
      rcases List.mem_cons.mp hps with hps | hps
      · rw [hps]
        exact hsup2 a.2 hs1
      · exact hmem2 ps hps

/-- Counterexample to claim C3 as stated: on a `Retryable` payment whose retry
strategy is exhausted, `retry_payment_with_route` is rejected with a
`ParameterError` even though the 110% cap is not exceeded, refuting "rejected
... if and only if the sum ... exceeds total_msat * 110 / 100". -/
theorem c3_counterexample_exhausted_rejection_without_cap :
    (retry_payment_with_route ⟨[[⟨2, 10, 3⟩]], none⟩ 1 [21] 9 0
        (fun _ _ _ _ _ _ _ _ _ => .ok ())
        [(1, .Retryable ⟨some (.Attempts 0), ⟨0⟩, none, [], 5, none, none, 0, some 0, 100, 0⟩)]).1 =
      .err (.ParameterError (.APIMisuseError "Retries exhausted for payment id 1")) ∧
    ¬ (wadd (wadd 0 (last_hop_fee [⟨2, 10, 3⟩])) 0 >
        wmul 100 (100 + RETRY_OVERFLOW_PERCENTAGE) / 100) := by
  decide

/-- Claim C3 as amended (source lines 611-675): for a call of
`retry_payment_with_route` on a payment in state `Retryable` whose paths are
all nonempty and for which `is_retryable_now` holds, the call is rejected with
a `ParameterError` — with no session inserted and attempts not incremented —
if and only if the wrapping-`u64` sum of the route's last-hop fees plus
`pending_amt_msat` exceeds `total_msat * 110 / 100` in exact `u64` arithmetic;
otherwise `attempts.count` is incremented and each of the per-path session
secrets is inserted into the payment before dispatch. -/
theorem c3_retry_overflow_cap (route : Route) (payment_id : PaymentId)
    (onion_session_privs : List SessionPriv) (our_node_id : PubKey)
    (best_block_height : Nat) (spap : SendPaymentAlongPath) (m : OutboundMap)
    (d : RetryableData)
    (hfound : mapLookup m payment_id = some (.Retryable d))
    (hpaths : ∀ p ∈ route.paths, p ≠ ([] : Path))
    (hretry : (PendingOutboundPayment.Retryable d).is_retryable_now = true)
    (hlen : onion_session_privs.length = route.paths.length) :
    (wadd (route.paths.foldl (fun acc p => wadd acc (last_hop_fee p)) 0) d.pending_amt_msat >
        wmul d.total_msat (100 + RETRY_OVERFLOW_PERCENTAGE) / 100 →
      ∃ e, retry_payment_with_route route payment_id onion_session_privs our_node_id
          best_block_height spap m =
        (.err (.ParameterError (.APIMisuseError e)), m)) ∧
    (¬ (wadd (route.paths.foldl (fun acc p => wadd acc (last_hop_fee p)) 0) d.pending_amt_msat >
        wmul d.total_msat (100 + RETRY_OVERFLOW_PERCENTAGE) / 100) →
      ∃ d2 m1,
        retry_payment_with_route_book route payment_id onion_session_privs m =
          .ok ((d.total_msat, d.payment_hash, d.payment_secret, d.keysend_preimage), m1) ∧
        mapLookup m1 payment_id = some (.Retryable d2) ∧
        d2.attempts.count = d.attempts.count + 1 ∧
        (∀ s ∈ onion_session_privs, s ∈ d2.session_privs) ∧
        retry_payment_with_route route payment_id onion_session_privs our_node_id
            best_block_height spap m =
          pay_route_internal route d.payment_hash d.payment_secret d.keysend_preimage
            payment_id (some d.total_msat) onion_session_privs our_node_id
            best_block_height spap m1) := by
  have hne : mapLookup m payment_id ≠ none := by
    rw [hfound]; exact Option.some_ne_none _
  have hnoempty : route.paths.any (fun p => decide (p.length = 0)) = false := by
    rw [List.any_eq_false]
    intro p hp
    have := hpaths p hp
    simp [List.length_eq_zero, this]
  constructor
  · intro hcap
    have hbook : retry_payment_with_route_book route payment_id onion_session_privs m =
        .err (.ParameterError (.APIMisuseError ("retry_amt_msat of " ++
          toString (route.paths.foldl (fun acc p => wadd acc (last_hop_fee p)) 0) ++
          " will put pending_amt_msat (currently: " ++ toString d.pending_amt_msat ++
          ") more than 10% over total_payment_amt_msat of " ++ toString d.total_msat))) := by
      unfold retry_payment_with_route_book
      simp only [hnoempty, Bool.false_eq_true, if_false, hfound, if_pos hcap]
    refine ⟨"retry_amt_msat of " ++
      toString (route.paths.foldl (fun acc p => wadd acc (last_hop_fee p)) 0) ++
      " will put pending_amt_msat (currently: " ++ toString d.pending_amt_msat ++
      ") more than 10% over total_payment_amt_msat of " ++ toString d.total_msat, ?_⟩
    unfold retry_payment_with_route
    rw [hbook]
  · intro hcap
    have hbneg : (!(PendingOutboundPayment.Retryable d).is_retryable_now) = false := by
      rw [hretry]; rfl
    obtain ⟨d2, hfold, hatt, _, hmem⟩ :=
      foldl_insert_retryable (route.paths.zip onion_session_privs)
        { d with attempts := ⟨d.attempts.count + 1⟩ }
    have hbook : retry_payment_with_route_book route payment_id onion_session_privs m =
        .ok ((d.total_msat, d.payment_hash, d.payment_secret, d.keysend_preimage),
          mapUpdate m payment_id (.Retryable d2)) := by
      unfold retry_payment_with_route_book
      simp only [hnoempty, Bool.false_eq_true, if_false, hfound, if_neg hcap, hbneg,
        PendingOutboundPayment.increment_attempts]
      rw [hfold]
    refine ⟨d2, mapUpdate m payment_id (.Retryable d2), hbook,
      mapLookup_mapUpdate_self hne _, by rw [hatt], ?_, ?_⟩
    · intro s hs
      have hsnd : (route.paths.zip onion_session_privs).map Prod.snd = onion_session_privs :=
        List.map_snd_zip _ _ (le_of_eq hlen)
      rw [← hsnd] at hs
      obtain ⟨ps, hps, hps2⟩ := List.mem_map.mp hs
      rw [← hps2]
      exact hmem ps hps
    · unfold retry_payment_with_route
      rw [hbook]

/-- Witness for the amended C3 at a concrete retryable payment within the cap. -/
theorem c3_retry_overflow_cap_witness :
    ∃ d2 m1,
      retry_payment_with_route_book ⟨[[⟨2, 10, 3⟩]], none⟩ 1 [21]
          [(1, .Retryable ⟨none, ⟨0⟩, none, [], 5, none, none, 0, some 0, 100, 0⟩)] =
        .ok ((100, 5, none, none), m1) ∧
      mapLookup m1 1 = some (.Retryable d2) ∧
      d2.attempts.count = 0 + 1 ∧
      (∀ s ∈ ([21] : List SessionPriv), s ∈ d2.session_privs) ∧
      retry_payment_with_route ⟨[[⟨2, 10, 3⟩]], none⟩ 1 [21] 9 0
          (fun _ _ _ _ _ _ _ _ _ => .ok ())
          [(1, .Retryable ⟨none, ⟨0⟩, none, [], 5, none, none, 0, some 0, 100, 0⟩)] =
        pay_route_internal ⟨[[⟨2, 10, 3⟩]], none⟩ 5 none none 1 (some 100) [21] 9 0
          (fun _ _ _ _ _ _ _ _ _ => .ok ()) m1 :=
  (c3_retry_overflow_cap ⟨[[⟨2, 10, 3⟩]], none⟩ 1 [21] 9 0
    (fun _ _ _ _ _ _ _ _ _ => .ok ())
    [(1, .Retryable ⟨none, ⟨0⟩, none, [], 5, none, none, 0, some 0, 100, 0⟩)]
    ⟨none, ⟨0⟩, none, [], 5, none, none, 0, some 0, 100, 0⟩
    (by decide) (by decide) (by decide) (by decide)).2 (by decide)

theorem pri_dispatch_results (spap : SendPaymentAlongPath)
    (route_pp : Option PaymentParameters) (payment_hash : PaymentHash)
    (payment_secret : Option PaymentSecret) (tv ch : Nat) (payment_id : PaymentId)
    (keysend_preimage : Option PaymentPreimage) :
    ∀ (l : List (Path × SessionPriv)) (m : OutboundMap), mapLookup m payment_id ≠ none →
      (pri_dispatch spap route_pp payment_hash payment_secret tv ch payment_id
          keysend_preimage l m).1 =
        l.map (fun ps => spap ps.1 route_pp payment_hash payment_secret tv ch payment_id
          keysend_preimage ps.2) ∧
      mapLookup (pri_dispatch spap route_pp payment_hash payment_secret tv ch payment_id
          keysend_preimage l m).2 payment_id ≠ none := by
  intro l
  induction l with
  | nil => intro m hm; exact ⟨rfl, hm⟩
  | cons a rest ih =>
    intro m hm
    obtain ⟨path, sp⟩ := a
    obtain ⟨payment, hp⟩ := Option.ne_none_iff_exists'.mp hm
    cases hres : spap path route_pp payment_hash payment_secret tv ch payment_id
        keysend_preimage sp with
    | ok v =>
      have hrec := ih m hm
      constructor
      · simp only [pri_dispatch, hres, List.map_cons, hrec.1]
      · simp only [pri_dispatch, hres]
        exact hrec.2
    | err e =>
      cases e with
      | MonitorUpdateInProgress =>
        have hrec := ih m hm
        constructor
        · simp only [pri_dispatch, hres, List.map_cons, hrec.1]
        · simp only [pri_dispatch, hres]
          exact hrec.2
      | APIMisuseError s =>
        have hm2 := mapLookup_mapUpdate_isSome hm (payment.remove sp (some path)).1
        have hrec := ih _ hm2
        constructor
        · simp only [pri_dispatch, hres, hp, List.map_cons, hrec.1]
        · simp only [pri_dispatch, hres, hp]
          exact hrec.2
      | InvalidRoute s =>
        have hm2 := mapLookup_mapUpdate_isSome hm (payment.remove sp (some path)).1
        have hrec := ih _ hm2
        constructor
        · simp only [pri_dispatch, hres, hp, List.map_cons, hrec.1]
        · simp only [pri_dispatch, hres, hp]
          exact hrec.2
      | ChannelUnavailable s =>
        have hm2 := mapLookup_mapUpdate_isSome hm (payment.remove sp (some path)).1
        have hrec := ih _ hm2
        constructor
        · simp only [pri_dispatch, hres, hp, List.map_cons, hrec.1]
        · simp only [pri_dispatch, hres, hp]
          exact hrec.2

theorem res_has_ok_iff (outs : List (RResult Unit APIError)) :
    res_has_ok outs = true ↔
      ∃ r ∈ outs, (r = RResult.ok () ∨ r = RResult.err APIError.MonitorUpdateInProgress) := by
  unfold res_has_ok
  rw [List.any_eq_true]
  constructor
  · rintro ⟨r, hr, hp⟩
    refine ⟨r, hr, ?_⟩
    cases r with
    | ok v => cases v; exact Or.inl rfl
    | err e =>
      cases e with
      | MonitorUpdateInProgress => exact Or.inr rfl
      | APIMisuseError s => simp at hp
      | InvalidRoute s => simp at hp
      | ChannelUnavailable s => simp at hp
  · rintro ⟨r, hr, hp⟩
    refine ⟨r, hr, ?_⟩
    rcases hp with h | h <;> subst h <;> rfl

theorem res_has_err_iff (outs : List (RResult Unit APIError)) :
    res_has_err outs = true ↔ ∃ r ∈ outs, r.isErr = true := by
  unfold res_has_err
  exact List.any_eq_true

/-- Counterexample to claim C1 as stated: a mixed outcome in which the only
truly-removed path delivers 0 msat.  `route.payment_params` is set and a path
was truly removed, yet `failed_paths_retry` is `None`, because the source
gates it on `pending_amt_unsent != 0` (source line 842), not on "at least one
path was truly removed". -/
theorem c1_counterexample_zero_fee_removed_path :
    (pay_route_internal ⟨[[⟨2, 5, 3⟩], [⟨3, 0, 4⟩]], some ⟨0, none, [], none⟩⟩ 7 (some 1)
        none 1 none [21, 22] 9 0
        (fun _ _ _ _ _ _ _ _ sp =>
          if sp = 22 then .err (.ChannelUnavailable "chan") else .ok ())
        [(1, .Legacy [21, 22])]).1 =
      .err (.PartialFailure [.ok (), .err (.ChannelUnavailable "chan")] none 1) ∧
    (some (⟨0, none, [], none⟩ : PaymentParameters)).isSome = true ∧
    trulyFailed (.err (.ChannelUnavailable "chan")) = true := by
  decide

/-- Claim C1 as amended (source lines 799-858): for a `pay_route_internal`
call that reaches dispatch (validation passed, one session per path, payment
present), with `outs` the per-path dispatch outcomes: a mix of
committed (`Ok` or `MonitorUpdateInProgress`) and erroring paths yields
`PartialFailure` carrying exactly those results, where `failed_paths_retry` is
`Some` iff `route.payment_params` is set and the truly-removed paths' fee sum
(`pending_amt_unsent`) is nonzero, its `final_value_msat` is that sum and its
`final_cltv_expiry_delta` falls back to the maximum last-hop
`cltv_expiry_delta` over the truly-removed paths; all paths truly failing
yields `AllFailedResendSafe` with those errors; all paths `Ok` yields `Ok`. -/
theorem c1_pay_route_internal_aggregation (route : Route) (payment_hash : PaymentHash)
    (payment_secret : Option PaymentSecret) (keysend_preimage : Option PaymentPreimage)
    (payment_id : PaymentId) (recv_value_msat : Option Nat)
    (onion_session_privs : List SessionPriv) (our_node_id : PubKey)
    (best_block_height : Nat) (spap : SendPaymentAlongPath) (m : OutboundMap)
    (hne : route.paths ≠ [])
    (hsec : payment_secret = none → route.paths.length ≤ 1)
    (hvalid : ∀ p ∈ route.paths, check_path our_node_id p = .ok ())
    (hlen : onion_session_privs.length = route.paths.length)
    (hpresent : mapLookup m payment_id ≠ none) :
    ∀ outs, outs = (route.paths.zip onion_session_privs).map
        (fun ps => spap ps.1 route.payment_params payment_hash payment_secret
          (pri_total_value (path_check_loop our_node_id route.paths).2 recv_value_msat)
          (wadd32 best_block_height 1) payment_id keysend_preimage ps.2) →
    (((∃ r ∈ outs, r = RResult.ok () ∨ r = RResult.err APIError.MonitorUpdateInProgress) →
      (∃ r ∈ outs, r.isErr = true) →
      ∃ fpr,
        (pay_route_internal route payment_hash payment_secret keysend_preimage payment_id
          recv_value_msat onion_session_privs our_node_id best_block_height spap m).1 =
          .err (.PartialFailure outs fpr payment_id) ∧
        (fpr.isSome = true ↔ (route.payment_params.isSome = true ∧
          pending_amt_unsent (outs.zip route.paths) ≠ 0)) ∧
        (∀ rp, fpr = some rp → ∃ pp, route.payment_params = some pp ∧
          rp.payment_params = pp ∧
          rp.final_value_msat = pending_amt_unsent (outs.zip route.paths) ∧
          rp.final_cltv_expiry_delta = (match pp.final_cltv_expiry_delta with
            | some delta => delta
            | none => max_unsent_cltv_delta (outs.zip route.paths)))) ∧
    ((∀ r ∈ outs, trulyFailed r = true) →
      (pay_route_internal route payment_hash payment_secret keysend_preimage payment_id
        recv_value_msat onion_session_privs our_node_id best_block_height spap m).1 =
        .err (.AllFailedResendSafe (outs.filterMap (fun r =>
          match r with
          | .err e => some e
          | .ok _ => none)))) ∧
    ((∀ r ∈ outs, r = RResult.ok ()) →
      (pay_route_internal route payment_hash payment_secret keysend_preimage payment_id
        recv_value_msat onion_session_privs our_node_id best_block_height spap m).1 =
        .ok ())) := by
  intro outs houts
  have h1 : ¬ route.paths.length < 1 := by
    have := List.length_pos.mpr hne
    omega
  have h2 : ¬ (payment_secret = none ∧ route.paths.length > 1) := by
    rintro ⟨hs, hl⟩
    have := hsec hs
    omega
  have hanyerr : (route.paths.map (check_path our_node_id)).any RResult.isErr = false := by
    rw [List.any_eq_false]
    intro r hr
    obtain ⟨p, hp, hpr⟩ := List.mem_map.mp hr
    rw [← hpr, hvalid p hp]
    simp [RResult.isErr]
  have hdisp := pri_dispatch_results spap route.payment_params payment_hash payment_secret
    (pri_total_value (path_check_loop our_node_id route.paths).2 recv_value_msat)
    (wadd32 best_block_height 1) payment_id keysend_preimage
    (route.paths.zip onion_session_privs) m hpresent
  have hres : (pri_dispatch spap route.payment_params payment_hash payment_secret
      (pri_total_value (path_check_loop our_node_id route.paths).2 recv_value_msat)
      (wadd32 best_block_height 1) payment_id keysend_preimage
      (route.paths.zip onion_session_privs) m).1 = outs := by
    rw [hdisp.1, houts]
  have houts_len : outs.length = route.paths.length := by
    rw [houts, List.length_map, List.length_zip, hlen, min_self]
  refine ⟨?_, ?_, ?_⟩
  · intro hok herr
    have hbok : res_has_ok outs = true := (res_has_ok_iff outs).mpr hok
    have hberr : res_has_err outs = true := (res_has_err_iff outs).mpr herr
    refine ⟨if pending_amt_unsent (outs.zip route.paths) ≠ 0 then
        match route.payment_params with
        | some payment_params =>
          some { payment_params := payment_params,
                 final_value_msat := pending_amt_unsent (outs.zip route.paths),
                 final_cltv_expiry_delta :=
                   match payment_params.final_cltv_expiry_delta with
                   | some delta => delta
                   | none => max_unsent_cltv_delta (outs.zip route.paths) }
        | none => none
      else none, ?_, ?_, ?_⟩
    · unfold pay_route_internal pri_classify
      simp only [if_neg h1, if_neg h2, path_check_loop_fst, hanyerr, Bool.false_eq_true,
        if_false, hres, hbok, hberr, Bool.and_self, if_true]
    · by_cases hpau : pending_amt_unsent (outs.zip route.paths) ≠ 0
      · cases hpp : route.payment_params with
        | some pp => simp [hpau, hpp]
        | none => simp [hpau, hpp]
      · simp [hpau]
    · intro rp hrp
      by_cases hpau : pending_amt_unsent (outs.zip route.paths) ≠ 0
      · cases hpp : route.payment_params with
        | some pp =>
          rw [if_pos hpau, hpp] at hrp
          have hrp' := Option.some.inj hrp
          refine ⟨pp, rfl, ?_, ?_, ?_⟩ <;> rw [← hrp']
        | none =>
          rw [if_pos hpau, hpp] at hrp
          cases hrp
      · rw [if_neg hpau] at hrp
        cases hrp
  · intro hall
    have houtsne : outs ≠ [] := by
      intro hx
      rw [hx] at houts_len
      simp only [List.length_nil] at houts_len
      have := List.length_pos.mpr hne
      omega
    have hberr : res_has_err outs = true := by
      rw [res_has_err_iff]
      obtain ⟨r, hr⟩ := List.exists_mem_of_ne_nil outs houtsne
      refine ⟨r, hr, ?_⟩
      have := hall r hr
      cases r with
      | ok v => simp [trulyFailed] at this
      | err e => rfl
    have hbok : res_has_ok outs = false := by
      rw [← Bool.not_eq_true, res_has_ok_iff]
      rintro ⟨r, hr, hcase⟩
      have := hall r hr
      rcases hcase with h | h <;> rw [h] at this <;> simp [trulyFailed] at this
    unfold pay_route_internal pri_classify
    simp only [if_neg h1, if_neg h2, path_check_loop_fst, hanyerr, Bool.false_eq_true,
      if_false, hres, hbok, hberr, Bool.and_false, if_false, if_true]
  · intro hall
    have hberr : res_has_err outs = false := by
      rw [← Bool.not_eq_true, res_has_err_iff]
      rintro ⟨r, hr, hcase⟩
      rw [hall r hr] at hcase
      simp [RResult.isErr] at hcase
    unfold pay_route_internal pri_classify
    simp only [if_neg h1, if_neg h2, path_check_loop_fst, hanyerr, Bool.false_eq_true,
      if_false, hres, hberr, Bool.false_and, if_false]

/-- Witness for the amended C1: a two-path call with one committed and one
truly-removed nonzero-fee path, checked against the `PartialFailure` shape. -/
theorem c1_pay_route_internal_aggregation_witness :
    ∃ fpr,
      (pay_route_internal ⟨[[⟨2, 5, 3⟩], [⟨3, 4, 6⟩]], some ⟨0, none, [], none⟩⟩ 7 (some 1)
        none 1 none [21, 22] 9 0
        (fun _ _ _ _ _ _ _ _ sp =>
          if sp = 22 then .err (.ChannelUnavailable "chan") else .ok ())
        [(1, .Legacy [21, 22])]).1 =
        .err (.PartialFailure [.ok (), .err (.ChannelUnavailable "chan")] fpr 1) ∧
      (fpr.isSome = true ↔
        ((some (⟨0, none, [], none⟩ : PaymentParameters)).isSome = true ∧
          pending_amt_unsent (([.ok (), .err (.ChannelUnavailable "chan")].zip
            [[⟨2, 5, 3⟩], [⟨3, 4, 6⟩]])) ≠ 0)) ∧
      (∀ rp, fpr = some rp → ∃ pp,
        (some (⟨0, none, [], none⟩ : PaymentParameters)) = some pp ∧
        rp.payment_params = pp ∧
        rp.final_value_msat = pending_amt_unsent (([.ok (), .err (.ChannelUnavailable "chan")].zip
          [[⟨2, 5, 3⟩], [⟨3, 4, 6⟩]])) ∧
        rp.final_cltv_expiry_delta = (match pp.final_cltv_expiry_delta with
          | some delta => delta
          | none => max_unsent_cltv_delta (([.ok (), .err (.ChannelUnavailable "chan")].zip
            [[⟨2, 5, 3⟩], [⟨3, 4, 6⟩]])))) := by
  exact (c1_pay_route_internal_aggregation ⟨[[⟨2, 5, 3⟩], [⟨3, 4, 6⟩]], some ⟨0, none, [], none⟩⟩
    7 (some 1) none 1 none [21, 22] 9 0
    (fun _ _ _ _ _ _ _ _ sp =>
      if sp = 22 then .err (.ChannelUnavailable "chan") else .ok ())
    [(1, .Legacy [21, 22])] (by decide) (by decide) (by decide) (by decide)
    (by decide) [.ok (), .err (.ChannelUnavailable "chan")] (by decide)).1
    (by decide) (by decide)

theorem pri_classify_ne_dup (results : List (RResult Unit APIError)) (paths : List Path)
    (route_pp : Option PaymentParameters) (payment_id : PaymentId) :
    pri_classify results paths route_pp payment_id ≠ .err .DuplicatePayment := by
  intro h
  unfold pri_classify at h
  simp only at h
  split_ifs at h <;> simp_all

theorem pay_route_internal_fst_ne_dup (route : Route) (payment_hash : PaymentHash)
    (payment_secret : Option PaymentSecret) (keysend_preimage : Option PaymentPreimage)
    (payment_id : PaymentId) (recv_value_msat : Option Nat)
    (onion_session_privs : List SessionPriv) (our_node_id : PubKey)
    (best_block_height : Nat) (spap : SendPaymentAlongPath) (m : OutboundMap) :
    (pay_route_internal route payment_hash payment_secret keysend_preimage payment_id
      recv_value_msat onion_session_privs our_node_id best_block_height spap m).1 ≠
      .err .DuplicatePayment := by
  intro h
  unfold pay_route_internal at h
  by_cases h1 : route.paths.length < 1
  · rw [if_pos h1] at h
    simp at h
  · rw [if_neg h1] at h
    by_cases h2 : payment_secret = none ∧ route.paths.length > 1
    · rw [if_pos h2] at h
      simp at h
    · rw [if_neg h2] at h
      by_cases h3 : ((path_check_loop our_node_id route.paths).1.any RResult.isErr) = true
      · rw [if_pos h3] at h
        simp at h
      · rw [if_neg h3] at h
        simp only at h
        exact pri_classify_ne_dup _ _ _ _ h

theorem retry_book_ne_dup (route : Route) (payment_id : PaymentId)
    (onion_session_privs : List SessionPriv) (m : OutboundMap) :
    retry_payment_with_route_book route payment_id onion_session_privs m ≠
      .err .DuplicatePayment := by
  intro h
  unfold retry_payment_with_route_book at h
  repeat' split at h
  all_goals try simp_all
  all_goals split_ifs at h
  all_goals simp_all

theorem retry_payment_with_route_fst_ne_dup (route : Route) (payment_id : PaymentId)
    (onion_session_privs : List SessionPriv) (our_node_id : PubKey)
    (best_block_height : Nat) (spap : SendPaymentAlongPath) (m : OutboundMap) :
    (retry_payment_with_route route payment_id onion_session_privs our_node_id
      best_block_height spap m).1 ≠ .err .DuplicatePayment := by
  intro h
  unfold retry_payment_with_route at h
  split at h
  · next e heq =>
    have he : e = .DuplicatePayment := by simpa using h
    rw [he] at heq
    exact retry_book_ne_dup route payment_id onion_session_privs m heq
  · next extracted m1 heq =>
    exact pay_route_internal_fst_ne_dup _ _ _ _ _ _ _ _ _ _ _ h

theorem add_new_present (payment_hash : PaymentHash) (payment_secret : Option PaymentSecret)
    (payment_id : PaymentId) (keysend_preimage : Option PaymentPreimage) (route : Route)
    (retry_strategy : Option Retry) (payment_params : Option PaymentParameters)
    (onion_session_privs : List SessionPriv) (best_block_height : Nat) (m : OutboundMap)
    (h : mapLookup m payment_id ≠ none) :
    add_new_pending_payment payment_hash payment_secret payment_id keysend_preimage route
        retry_strategy payment_params onion_session_privs best_block_height m =
      (.err .DuplicatePayment, m) := by
  obtain ⟨p, hp⟩ := Option.ne_none_iff_exists'.mp h
  unfold add_new_pending_payment
  rw [hp]

theorem add_new_absent (payment_hash : PaymentHash) (payment_secret : Option PaymentSecret)
    (payment_id : PaymentId) (keysend_preimage : Option PaymentPreimage) (route : Route)
    (retry_strategy : Option Retry) (payment_params : Option PaymentParameters)
    (onion_session_privs : List SessionPriv) (best_block_height : Nat) (m : OutboundMap)
    (h : mapLookup m payment_id = none) :
    ∃ pm, add_new_pending_payment payment_hash payment_secret payment_id keysend_preimage
        route retry_strategy payment_params onion_session_privs best_block_height m =
      (.ok onion_session_privs, mapInsertNew m payment_id pm) := by
  unfold add_new_pending_payment
  rw [h]
  exact ⟨_, rfl⟩

theorem pay_internal_none_fst_ne_dup : ∀ (fuel : Nat) (payment_id : PaymentId)
    (route_params : RouteParameters) (find_route : RouteParameters → RResult Route String)
    (now : Nat) (entropy : Nat → Nat) (ectr : Nat) (our_node_id : PubKey)
    (best_block_height : Nat) (spap : SendPaymentAlongPath) (m : OutboundMap),
    (pay_internal fuel payment_id none route_params find_route now entropy ectr our_node_id
      best_block_height spap m).1 ≠ .err .DuplicatePayment := by
  intro fuel
  induction fuel with
  | zero =>
    intro payment_id route_params find_route now entropy ectr our_node_id bbh spap m h
    simp [pay_internal] at h
  | succ n ih =>
    intro payment_id route_params find_route now entropy ectr our_node_id bbh spap m h
    unfold pay_internal at h
    simp only at h
    repeat' split at h
    · simp at h
    · simp at h
    · simp at h
    · exact ih _ _ _ _ _ _ _ _ _ _ h
    · exact ih _ _ _ _ _ _ _ _ _ _ h
    · simp at h
    · simp at h
    · simp only at h
      exact retry_payment_with_route_fst_ne_dup _ _ _ _ _ _ _ h

theorem pay_internal_some_fst_ne_dup_of_absent : ∀ (fuel : Nat) (payment_id : PaymentId)
    (payment_hash : PaymentHash) (payment_secret : Option PaymentSecret)
    (keysend_preimage : Option PaymentPreimage) (retry_strategy : Retry)
    (route_params : RouteParameters) (find_route : RouteParameters → RResult Route String)
    (now : Nat) (entropy : Nat → Nat) (ectr : Nat) (our_node_id : PubKey)
    (best_block_height : Nat) (spap : SendPaymentAlongPath) (m : OutboundMap),
    mapLookup m payment_id = none →
    (pay_internal fuel payment_id
      (some (payment_hash, payment_secret, keysend_preimage, retry_strategy)) route_params
      find_route now entropy ectr our_node_id best_block_height spap m).1 ≠
      .err .DuplicatePayment := by
  intro fuel payment_id payment_hash payment_secret keysend_preimage retry_strategy
    route_params find_route now entropy ectr our_node_id bbh spap m habs h
  cases fuel with
  | zero => simp [pay_internal] at h
  | succ n =>
    unfold pay_internal at h
    simp only at h
    split at h
    · simp at h
    · split at h
      · simp at h
      · rename_i route hroute
        obtain ⟨pm, heqa⟩ := add_new_absent payment_hash payment_secret payment_id
          keysend_preimage route (some retry_strategy) (some route_params.payment_params)
          (drawSessionPrivs entropy ectr route.paths.length) bbh m habs
        rw [heqa] at h
        simp only at h
        repeat' split at h
        · simp at h
        · exact pay_internal_none_fst_ne_dup _ _ _ _ _ _ _ _ _ _ _ h
        · exact pay_internal_none_fst_ne_dup _ _ _ _ _ _ _ _ _ _ _ h
        · simp at h
        · simp at h
        · simp only at h
          exact pay_route_internal_fst_ne_dup _ _ _ _ _ _ _ _ _ _ _ h

theorem pay_internal_some_fst_dup_of_present (fuel : Nat) (payment_id : PaymentId)
    (payment_hash : PaymentHash) (payment_secret : Option PaymentSecret)
    (keysend_preimage : Option PaymentPreimage) (retry_strategy : Retry)
    (route_params : RouteParameters) (find_route : RouteParameters → RResult Route String)
    (now : Nat) (entropy : Nat → Nat) (ectr : Nat) (our_node_id : PubKey)
    (best_block_height : Nat) (spap : SendPaymentAlongPath) (m : OutboundMap)
    (route : Route) (hfuel : 0 < fuel) (hexp : has_expired route_params now = false)
    (hroute : find_route route_params = .ok route)
    (hpres : mapLookup m payment_id ≠ none) :
    (pay_internal fuel payment_id
      (some (payment_hash, payment_secret, keysend_preimage, retry_strategy)) route_params
      find_route now entropy ectr our_node_id best_block_height spap m).1 =
      .err .DuplicatePayment := by
  cases fuel with
  | zero => simp at hfuel
  | succ n =>
    unfold pay_internal
    simp only [hexp, Bool.false_eq_true, if_false, hroute]
    rw [add_new_present payment_hash payment_secret payment_id keysend_preimage route
      (some retry_strategy) (some route_params.payment_params)
      (drawSessionPrivs entropy ectr route.paths.length) best_block_height m hpres]

theorem send_payment_fst (payment_hash : PaymentHash) (payment_secret : Option PaymentSecret)
    (payment_id : PaymentId) (retry_strategy : Retry) (route_params : RouteParameters)
    (find_route : RouteParameters → RResult Route String) (now : Nat) (entropy : Nat → Nat)
    (ectr : Nat) (our_node_id : PubKey) (best_block_height : Nat)
    (spap : SendPaymentAlongPath) (fuel : Nat) (m : OutboundMap) :
    (send_payment payment_hash payment_secret payment_id retry_strategy route_params
      find_route now entropy ectr our_node_id best_block_height spap fuel m).1 =
    (pay_internal fuel payment_id
      (some (payment_hash, payment_secret, none, retry_strategy)) route_params find_route
      now entropy ectr our_node_id best_block_height spap m).1 := by
  unfold send_payment
  cases hr : (pay_internal fuel payment_id
      (some (payment_hash, payment_secret, none, retry_strategy)) route_params find_route
      now entropy ectr our_node_id best_block_height spap m).1 with
  | err e => simp [hr]
  | ok v => simp [hr]

theorem send_spontaneous_payment_fst_dup_iff (payment_preimage : Option PaymentPreimage)
    (payment_id : PaymentId) (retry_strategy : Retry) (route_params : RouteParameters)
    (find_route : RouteParameters → RResult Route String) (now : Nat)
    (sha : PaymentPreimage → PaymentHash) (entropy : Nat → Nat) (ectr : Nat)
    (our_node_id : PubKey) (best_block_height : Nat) (spap : SendPaymentAlongPath)
    (fuel : Nat) (m : OutboundMap) :
    ((send_spontaneous_payment payment_preimage payment_id retry_strategy route_params
        find_route now sha entropy ectr our_node_id best_block_height spap fuel m).1 =
      .err .DuplicatePayment ↔
    (pay_internal fuel payment_id
      (some (sha (match payment_preimage with
                  | some p => (p, ectr)
                  | none => (entropy ectr, ectr + 1)).1, none,
        some (match payment_preimage with
              | some p => (p, ectr)
              | none => (entropy ectr, ectr + 1)).1, retry_strategy)) route_params
      find_route now entropy
      (match payment_preimage with
       | some p => (p, ectr)
       | none => (entropy ectr, ectr + 1)).2 our_node_id best_block_height spap m).1 =
      .err .DuplicatePayment) := by
  unfold send_spontaneous_payment
  cases hr : (pay_internal fuel payment_id
      (some (sha (match payment_preimage with
                  | some p => (p, ectr)
                  | none => (entropy ectr, ectr + 1)).1, none,
        some (match payment_preimage with
              | some p => (p, ectr)
              | none => (entropy ectr, ectr + 1)).1, retry_strategy)) route_params
      find_route now entropy
      (match payment_preimage with
       | some p => (p, ectr)
       | none => (entropy ectr, ectr + 1)).2 our_node_id best_block_height spap m).1 with
  | err e => simp [hr]
  | ok v => simp [hr]

/-- Counterexample to claim C2 as stated: `send_payment` with the payment id
already present returns the router's `ParameterError`, not `DuplicatePayment`,
because route finding runs before registration (source lines 561-569); the
"if and only if" direction from presence to `DuplicatePayment` fails. -/
theorem c2_counterexample_router_error_preempts_duplicate :
    (send_payment 7 none 1 (.Attempts 3) ⟨⟨0, none, [], none⟩, 0, 0⟩
        (fun _ => .err "no route") 0 (fun n => n + 50) 0 9 0
        (fun _ _ _ _ _ _ _ _ _ => .ok ()) 1 [(1, .Legacy [])]).1 =
      .err (.ParameterError
        (.APIMisuseError "Failed to find a route for payment 1: no route")) ∧
    mapLookup [(1, PendingOutboundPayment.Legacy [])] 1 ≠ none := by
  decide

/-- Claim C2 as amended (source lines 405-490, 537-573, 677-707, 727-729):
across the send-family operations, `DuplicatePayment` is returned only if the
payment id is present in the map at call time; conversely, presence yields
`DuplicatePayment` whenever the call reaches registration — unconditionally
for `send_payment_with_route`, and for `send_payment`,
`send_spontaneous_payment` and `send_probe` provided no earlier failure
preempts it (invoice not expired and the router found a route; at least two
hops for a probe). -/
theorem c2_duplicate_payment_iff :
    (∀ (route : Route) (payment_hash : PaymentHash) (payment_secret : Option PaymentSecret)
      (payment_id : PaymentId) (onion_session_privs : List SessionPriv)
      (our_node_id : PubKey) (best_block_height : Nat) (spap : SendPaymentAlongPath)
      (m : OutboundMap),
      ((send_payment_with_route route payment_hash payment_secret payment_id
          onion_session_privs our_node_id best_block_height spap m).1 =
        .err .DuplicatePayment ↔ mapLookup m payment_id ≠ none)) ∧
    (∀ (payment_hash : PaymentHash) (payment_secret : Option PaymentSecret)
      (payment_id : PaymentId) (retry_strategy : Retry) (route_params : RouteParameters)
      (find_route : RouteParameters → RResult Route String) (now : Nat)
      (entropy : Nat → Nat) (ectr : Nat) (our_node_id : PubKey) (best_block_height : Nat)
      (spap : SendPaymentAlongPath) (fuel : Nat) (m : OutboundMap),
      ((send_payment payment_hash payment_secret payment_id retry_strategy route_params
          find_route now entropy ectr our_node_id best_block_height spap fuel m).1 =
        .err .DuplicatePayment → mapLookup m payment_id ≠ none) ∧
      (0 < fuel → has_expired route_params now = false →
        (∃ route, find_route route_params = .ok route) → mapLookup m payment_id ≠ none →
        (send_payment payment_hash payment_secret payment_id retry_strategy route_params
          find_route now entropy ectr our_node_id best_block_height spap fuel m).1 =
          .err .DuplicatePayment)) ∧
    (∀ (payment_preimage : Option PaymentPreimage) (payment_id : PaymentId)
      (retry_strategy : Retry) (route_params : RouteParameters)
      (find_route : RouteParameters → RResult Route String) (now : Nat)
      (sha : PaymentPreimage → PaymentHash) (entropy : Nat → Nat) (ectr : Nat)
      (our_node_id : PubKey) (best_block_height : Nat) (spap : SendPaymentAlongPath)
      (fuel : Nat) (m : OutboundMap),
      ((send_spontaneous_payment payment_preimage payment_id retry_strategy route_params
          find_route now sha entropy ectr our_node_id best_block_height spap fuel m).1 =
        .err .DuplicatePayment → mapLookup m payment_id ≠ none) ∧
      (0 < fuel → has_expired route_params now = false →
        (∃ route, find_route route_params = .ok route) → mapLookup m payment_id ≠ none →
        (send_spontaneous_payment payment_preimage payment_id retry_strategy route_params
          find_route now sha entropy ectr our_node_id best_block_height spap fuel m).1 =
          .err .DuplicatePayment)) ∧
    (∀ (hops : Path) (probing_cookie_secret : Nat)
      (cookie_hash : Nat → PaymentId → PaymentHash) (entropy : Nat → Nat) (ectr : Nat)
      (our_node_id : PubKey) (best_block_height : Nat) (spap : SendPaymentAlongPath)
      (m : OutboundMap),
      ((send_probe hops probing_cookie_secret cookie_hash entropy ectr our_node_id
          best_block_height spap m).1 = .err .DuplicatePayment →
        mapLookup m (entropy ectr) ≠ none) ∧
      (2 ≤ hops.length → mapLookup m (entropy ectr) ≠ none →
        (send_probe hops probing_cookie_secret cookie_hash entropy ectr our_node_id
          best_block_height spap m).1 = .err .DuplicatePayment)) := by
  refine ⟨?_, ?_, ?_, ?_⟩
  · intro route payment_hash payment_secret payment_id onion_session_privs our_node_id
      bbh spap m
    constructor
    · intro h
      by_contra habs
      obtain ⟨pm, heqa⟩ := add_new_absent payment_hash payment_secret payment_id none route
        none none onion_session_privs bbh m habs
      unfold send_payment_with_route at h
      rw [heqa] at h
      simp only at h
      split at h
      · simp at h
      · next e m2 heq =>
        have he : e = .DuplicatePayment := by simpa using h
        rw [he] at heq
        have hfst : (pay_route_internal route payment_hash payment_secret none payment_id
            none onion_session_privs our_node_id bbh spap
            (mapInsertNew m payment_id pm)).1 = .err .DuplicatePayment := by rw [heq]
        exact pay_route_internal_fst_ne_dup _ _ _ _ _ _ _ _ _ _ _ hfst
    · intro hpres
      unfold send_payment_with_route
      rw [add_new_present payment_hash payment_secret payment_id none route none none
        onion_session_privs bbh m hpres]
  · intro payment_hash payment_secret payment_id retry_strategy route_params find_route
      now entropy ectr our_node_id bbh spap fuel m
    constructor
    · intro h
      rw [send_payment_fst] at h
      by_contra habs
      exact pay_internal_some_fst_ne_dup_of_absent fuel payment_id payment_hash
        payment_secret none retry_strategy route_params find_route now entropy ectr
        our_node_id bbh spap m habs h
    · rintro hfuel hexp ⟨route, hroute⟩ hpres
      rw [send_payment_fst]
      exact pay_internal_some_fst_dup_of_present fuel payment_id payment_hash
        payment_secret none retry_strategy route_params find_route now entropy ectr
        our_node_id bbh spap m route hfuel hexp hroute hpres
  · intro payment_preimage payment_id retry_strategy route_params find_route now sha
      entropy ectr our_node_id bbh spap fuel m
    constructor
    · intro h
      rw [send_spontaneous_payment_fst_dup_iff] at h
      by_contra habs
      exact pay_internal_some_fst_ne_dup_of_absent fuel payment_id _ none _ retry_strategy
        route_params find_route now entropy _ our_node_id bbh spap m habs h
    · rintro hfuel hexp ⟨route, hroute⟩ hpres
      rw [send_spontaneous_payment_fst_dup_iff]
      exact pay_internal_some_fst_dup_of_present fuel payment_id _ none _ retry_strategy
        route_params find_route now entropy _ our_node_id bbh spap m route hfuel hexp
        hroute hpres
  · intro hops probing_cookie_secret cookie_hash entropy ectr our_node_id bbh spap m
    constructor
    · intro h
      by_contra habs
      unfold send_probe at h
      split at h
      · simp at h
      · obtain ⟨pm, heqa⟩ := add_new_absent
          (probing_cookie_from_id cookie_hash (entropy ectr) probing_cookie_secret) none
          (entropy ectr) none ⟨[hops], none⟩ none none [entropy (ectr + 1)] bbh m habs
        simp only at h
        rw [heqa] at h
        simp only at h
        split at h
        · simp at h
        · next e m2 heq =>
          have he : e = .DuplicatePayment := by simpa using h
          rw [he] at heq
          have hfst : (pay_route_internal ⟨[hops], none⟩
              (probing_cookie_from_id cookie_hash (entropy ectr) probing_cookie_secret) none
              none (entropy ectr) none [entropy (ectr + 1)] our_node_id bbh spap
              (mapInsertNew m (entropy ectr) pm)).1 = .err .DuplicatePayment := by rw [heq]
          exact pay_route_internal_fst_ne_dup _ _ _ _ _ _ _ _ _ _ _ hfst
    · intro hlen hpres
      unfold send_probe
      have hnl : ¬ hops.length < 2 := by omega
      rw [if_neg hnl]
      simp only
      rw [add_new_present (probing_cookie_from_id cookie_hash (entropy ectr)
        probing_cookie_secret) none (entropy ectr) none ⟨[hops], none⟩ none none
        [entropy (ectr + 1)] bbh m hpres]

/-- Witness for the amended C2: a present id yields `DuplicatePayment` through
`send_payment_with_route` and through `send_payment` with a working router. -/
theorem c2_duplicate_payment_iff_witness :
    (send_payment_with_route ⟨[[⟨2, 10, 5⟩]], none⟩ 7 none 1 [11] 9 0
        (fun _ _ _ _ _ _ _ _ _ => .ok ()) [(1, .Legacy [])]).1 =
      .err .DuplicatePayment ∧
    (send_payment 7 none 1 (.Attempts 3) ⟨⟨0, none, [], none⟩, 0, 0⟩
        (fun _ => .ok ⟨[[⟨2, 10, 5⟩]], none⟩) 0 (fun n => n + 50) 0 9 0
        (fun _ _ _ _ _ _ _ _ _ => .ok ()) 1 [(1, .Legacy [])]).1 =
      .err .DuplicatePayment := by
  constructor
  · exact (c2_duplicate_payment_iff.1 ⟨[[⟨2, 10, 5⟩]], none⟩ 7 none 1 [11] 9 0
      (fun _ _ _ _ _ _ _ _ _ => .ok ()) [(1, .Legacy [])]).mpr (by decide)
  · exact (c2_duplicate_payment_iff.2.1 7 none 1 (.Attempts 3) ⟨⟨0, none, [], none⟩, 0, 0⟩
      (fun _ => .ok ⟨[[⟨2, 10, 5⟩]], none⟩) 0 (fun n => n + 50) 0 9 0
      (fun _ _ _ _ _ _ _ _ _ => .ok ()) 1 [(1, .Legacy [])]).2 (by decide) (by decide)
      ⟨⟨[[⟨2, 10, 5⟩]], none⟩, rfl⟩ (by decide)

end LDK
